import Mathlib

/-!
Verification development for the patient-appointments repository
(`agents/agent_graph_simple.py`, the five analysis agents, and
`main_simple.py`'s session-context update).

Python strings are embedded as `List Char` (alias `Str`); string literals
are written via `String.data`.  Python's `x in s` substring test, `.lower()`,
`.split()`, `.replace(...)` and the handful of `re.search` patterns used by
the code (all of the shape literal`.*`literal`.*`... plus `\b(\d+)\b` and the
three age patterns) are modelled by the executable scanners below.  The
newline-excluding behaviour of `.` in regexes is not modelled (no message in
scope contains a newline).  Floating-point severity weights (0.6/0.8/0.9/0.7,
thresholds 0.8/0.4) are represented in tenths as naturals, and confidences in
hundredths; for the sums that actually occur the float and rational orders
agree (the only threshold-exact sum is a single 0.8 match, where IEEE `>=`
also holds).
-/

namespace PatientApp

/-- Python strings as lists of characters. -/
abbrev Str := List Char

/-- Literal helper: a Lean string literal to `Str`. -/
def strOf (s : String) : Str := s.data

/-- The apostrophe character (written via its code point). -/
def apoc : Char := Char.ofNat 39

/-- Helper for literals containing one apostrophe: `sQ "can" "t"` is `can't`. -/
def sQ (a b : String) : Str := a.data ++ apoc :: b.data

/-- Python `str.lower()` (ASCII inputs). -/
def lowerStr (s : Str) : Str := s.map Char.toLower

/-- Python's substring test `needle in hay` (empty needle always matches). -/
def pyIn (needle : Str) : Str → Bool
  | [] => needle.isEmpty
  | c :: t => needle.isPrefixOf (c :: t) || pyIn needle t

/-- Python `str.replace(" ", "")`. -/
def removeSpaces (s : Str) : Str := s.filter (fun c => c ≠ ' ')

/-- Worker for `splitWS` (accumulates the current word reversed). -/
def splitWSGo (cur : Str) : Str → List Str
  | [] => if cur.isEmpty then [] else [cur.reverse]
  | c :: t =>
    if c = ' ' then
      if cur.isEmpty then splitWSGo [] t else cur.reverse :: splitWSGo [] t
    else splitWSGo (c :: cur) t

/-- Python `str.split()` with no argument: split on runs of whitespace
(messages in scope use only the space character). -/
def splitWS (s : Str) : List Str := splitWSGo [] s

/-- Python `"dr. "`-stripping: `str.replace("dr. ", "")`, left-to-right,
non-overlapping, specialised to the fixed pattern used by the code. -/
def stripDr : Str → Str
  | 'd' :: 'r' :: '.' :: ' ' :: t => stripDr t
  | c :: t => c :: stripDr t
  | [] => []

/-- A regex word character (`\w`): ASCII letter, digit or underscore. -/
def isWordChar (c : Char) : Bool := c.isAlphanum || c = '_'

/-- Worker for `findNums`: state is the current digit run (reversed), whether
that run started at a `\b` boundary, and whether the previous character was a
word character. -/
def findNumsGo (cur : Str) (curOk : Bool) (prevWord : Bool) : Str → List Str
  | [] => if !cur.isEmpty && curOk then [cur.reverse] else []
  | c :: t =>
    if c.isDigit then
      if cur.isEmpty then findNumsGo [c] (!prevWord) true t
      else findNumsGo (c :: cur) curOk true t
    else
      if !cur.isEmpty && curOk && !(isWordChar c) then
        cur.reverse :: findNumsGo [] true (isWordChar c) t
      else
        findNumsGo [] true (isWordChar c) t

/-- Python `re.findall(r'\b(\d+)\b', s)`: maximal digit runs delimited on both
sides by word boundaries. -/
def findNums (s : Str) : List Str := findNumsGo [] true false s

/-- Decimal digits to a natural (Python `int` on a digit string). -/
def digitsToNat (s : Str) : Nat := s.foldl (fun n c => 10 * n + (c.toNat - 48)) 0

/-- Worker for `natToStr`, structurally recursive on a fuel argument. -/
def natToStrAux : Nat → Nat → Str
  | 0, _ => []
  | _ + 1, 0 => []
  | fuel + 1, n + 1 => natToStrAux fuel ((n + 1) / 10) ++ [Char.ofNat (48 + (n + 1) % 10)]

/-- Decimal rendering of a natural (Python `f"{n}"`). -/
def natToStr (n : Nat) : Str := if n = 0 then [Char.ofNat 48] else natToStrAux n n

/-- Splits the leading digit run off a string. -/
def takeDigits : Str → Str × Str
  | [] => ([], [])
  | c :: t =>
    if c.isDigit then
      let p := takeDigits t
      (c :: p.1, p.2)
    else ([], c :: t)

/-- Regex `\s*`: skip spaces. -/
def skipWS : Str → Str
  | ' ' :: t => skipWS t
  | s => s

/-- Suffix following the first occurrence of `seg`, if any. -/
def findAfter (seg : Str) : Str → Option Str
  | [] => if seg.isEmpty then some [] else none
  | c :: t =>
    if seg.isPrefixOf (c :: t) then some ((c :: t).drop seg.length)
    else findAfter seg t

/-- `re.search` on a pattern of the shape `lit₁.*lit₂.*…`: the literal
segments must occur in order (this is the shape of every threat / sensitive /
injury pattern in the code). -/
def matchSegs : List Str → Str → Bool
  | [], _ => true
  | seg :: rest, s =>
    match findAfter seg s with
    | none => false
    | some tail => matchSegs rest tail

/-- Continuation check for the age pattern `(\d+)\s*years?\s*old` after the
digit run has been consumed. -/
def matchYearsOld (rest : Str) : Bool :=
  let r1 := skipWS rest
  if (strOf "year").isPrefixOf r1 then
    let r2 := r1.drop 4
    let r3 := match r2 with
      | 's' :: t => t
      | other => other
    (strOf "old").isPrefixOf (skipWS r3)
  else false

/-- Continuation check for the age pattern `(\d+)\s*yr`. -/
def matchYr (rest : Str) : Bool := (strOf "yr").isPrefixOf (skipWS rest)

/-- Leftmost digit run whose continuation satisfies `k`; scans runs as units
(a run start strictly inside a digit run can never succeed when the run start
fails, since the continuation is identical). -/
def findAgeRun (k : Str → Bool) (prevDigit : Bool) : Str → Option Nat
  | [] => none
  | c :: t =>
    if c.isDigit && !prevDigit then
      let p := takeDigits t
      if k p.2 then some (digitsToNat (c :: p.1))
      else findAgeRun k true t
    else findAgeRun k c.isDigit t

/-- `re.search(r"age\s*(\d+)", s)` value. -/
def findAgeAfterWord : Str → Option Nat
  | [] => none
  | c :: t =>
    if (strOf "age").isPrefixOf (c :: t) then
      let r := skipWS ((c :: t).drop 3)
      let p := takeDigits r
      if p.1.isEmpty then findAgeAfterWord t else some (digitsToNat p.1)
    else findAgeAfterWord t

/-- `_extract_risk_factors`'s age capture: the three patterns tried in order,
stopping at the first pattern that matches (the code `break`s there). -/
def extractAge (ml : Str) : Option Nat :=
  match findAgeRun matchYearsOld false ml with
  | some a => some a
  | none =>
    match findAgeAfterWord ml with
    | some a => some a
    | none => findAgeRun matchYr false ml

/-- First-occurrence deduplication standing in for Python's `list(set(xs))`
(the set's iteration order is arbitrary in Python; every property proved
below is order-insensitive). -/
def dedup : List Str → List Str
  | [] => []
  | x :: t => x :: (dedup t).filter (fun y => y ≠ x)

/-! ## Data model (`models/patient_models.py` is not in scope; these records
are modelled from the spec's §3 data model, which lists their fields). -/

/-- Modelled from the spec: ordered urgency tier used for severity and risk
level (`Priority` enum, values LOW/MEDIUM/HIGH/EMERGENCY). -/
inductive Priority
  | low
  | medium
  | high
  | emergency
deriving DecidableEq, Repr

/-- Modelled from the spec: appointment type enum (GENERAL/EMERGENCY/FOLLOWUP/SPECIALIST). -/
inductive ApptType
  | general
  | emergency
  | followup
  | specialist
deriving DecidableEq, Repr

/-- Modelled from the spec: `Slot` / `AppointmentSlot`. -/
structure AppointmentSlot where
  date : Str
  time : Str
  doctor : Str
  specialty : Str
  available : Bool := true
deriving DecidableEq, Repr

/-- A slot as stored in the session-context dictionary: a Python dict whose
keys may be absent (`.get` with default is total, `[...]` raises). -/
structure CtxSlot where
  doctor : Option Str := none
  date : Option Str := none
  time : Option Str := none
  specialty : Option Str := none
deriving DecidableEq, Repr

/-- Python dict bracket access `d[k]`: raises `KeyError` when absent
(`str(e)` of a `KeyError` is the quoted key). -/
def dget (v : Option Str) (key : String) : Except Str Str :=
  match v with
  | some x => .ok x
  | none => .error (apoc :: key.data ++ [apoc])

/-- Modelled from the spec: `AppointmentBooking`. -/
structure AppointmentBooking where
  appointment_id : Str
  patient_id : Str
  date : Str
  time : Str
  doctor : Str
  specialty : Str
  appointment_type : ApptType
  confirmed : Bool
deriving DecidableEq, Repr

/-- The assisting agent's `extracted_info` payload.  The duration and
severity matched texts are never read downstream (only their truthiness, in
`_calculate_confidence` and `_get_conversation_stage`), so they are modelled
as presence flags. -/
structure ExtractedInfo where
  symptoms : List Str := []
  has_duration : Bool := false
  has_severity : Bool := false
  medical_history : List Str := []
deriving DecidableEq, Repr

/-- Modelled from the spec: `SymptomAnalysis`. -/
structure SymptomAnalysis where
  symptoms : List Str
  severity : Priority
  urgency : Bool
  specialty_required : Option Str
deriving DecidableEq, Repr

/-- Modelled from the spec: `ComorbidityRisk`. -/
structure ComorbidityRisk where
  risk_factors : List Str
  risk_level : Priority
  recommendations : List Str
deriving DecidableEq, Repr

/-- One entry of the session's `conversation_history` (the timestamp and the
per-turn agent-response dump are never read back; they are omitted). -/
structure TurnRec where
  user_message : Str
  assistant_response : Str
deriving DecidableEq, Repr

/-- The session-context dictionary (`session_storage[sid]`, also the
orchestrator's `conversation_context`).  Each field models one key, with the
dict-`get` default of the code as the field default; `none` models an absent
key where the code distinguishes absence. -/
structure Ctx where
  conversation_history : List TurnRec := []
  conversation_stage : Str := strOf "initial"
  symptom_analysis : Option SymptomAnalysis := none
  comorbidity_risk : Option ComorbidityRisk := none
  available_slots : List CtxSlot := []
  is_medical : Option Bool := none
  extracted_info : Option ExtractedInfo := none
  urgency_indicators : List Str := []
  crisis_type : List Str := []
  booking_intent : Bool := false
deriving DecidableEq, Repr

/-- Modelled from the spec: `PatientRequest`. -/
structure PatientRequest where
  message : Str
  session_id : Option Str := none
  patient_id : Option Str := none
deriving DecidableEq, Repr

/-- Modelled from the spec: `AgentResponse` as stored by the orchestrator
(confidence in hundredths; the `data` payload is read from the stage result
dict before this record is built, so it is not duplicated here). -/
structure AgentResponse where
  agent_name : Str
  message : Str
  confidence : Nat
  action_taken : Option Str
deriving DecidableEq, Repr

/-- Modelled from the spec: the `AppointmentResponse` payload. -/
structure AppointmentResponse where
  message : Str
  agent_responses : List AgentResponse
  symptom_analysis : Option SymptomAnalysis := none
  comorbidity_risk : Option ComorbidityRisk := none
  available_slots : List AppointmentSlot := []
  booking : Option AppointmentBooking := none
  next_steps : List Str := []
  requires_emergency : Bool := false
  session_id : Option Str := none
deriving DecidableEq, Repr

/-- What a stage's `process_response` returns (the dict
`{message, confidence, action_taken, data}`). -/
structure ProcOut (α : Type) where
  message : Str
  confidence : Nat
  action_taken : Option Str
  data : α

/-! ## Jailbreak agent (`agents/jailbreak_agent.py`) -/

/-- `threat_patterns["prompt_injection"]` (each regex as its literal segments). -/
def piPatterns : List (List Str) :=
  [[strOf "ignore", strOf "previous", strOf "instructions"],
   [strOf "system", strOf "prompt"],
   [strOf "you are now"],
   [strOf "forget", strOf "instructions"],
   [strOf "act as", strOf "different"]]

/-- `threat_patterns["data_extraction"]`. -/
def dePatterns : List (List Str) :=
  [[strOf "show", strOf "database"],
   [strOf "list", strOf "patients"],
   [strOf "admin", strOf "access"],
   [strOf "api", strOf "key"],
   [strOf "password"]]

/-- `threat_patterns["medical_fraud"]`. -/
def mfPatterns : List (List Str) :=
  [[strOf "fake", strOf "prescription"],
   [strOf "illegal", strOf "drugs"],
   [strOf "without", strOf "prescription"],
   [strOf "forge", strOf "medical"]]

/-- `threat_patterns["harassment"]`. -/
def haPatterns : List (List Str) :=
  [[strOf "sexual", strOf "content"],
   [strOf "offensive", strOf "language"],
   [strOf "threat", strOf "violence"]]

/-- `_get_threat_severity`, in tenths (0.6/0.8/0.9/0.7, default 0.3). -/
def threatSeverity (category : Str) : Nat :=
  if category = strOf "prompt_injection" then 6
  else if category = strOf "data_extraction" then 8
  else if category = strOf "medical_fraud" then 9
  else if category = strOf "harassment" then 7
  else 3

/-- The `threat_patterns` dict in its iteration order. -/
def threatCategories : List (Str × List (List Str)) :=
  [(strOf "prompt_injection", piPatterns),
   (strOf "data_extraction", dePatterns),
   (strOf "medical_fraud", mfPatterns),
   (strOf "harassment", haPatterns)]

/-- `_analyze_threats`: the accumulated `risk_score` (tenths), summing the
category severity once per matched pattern, in the code's loop order. -/
def analyzeThreatsScore (ml : Str) : Nat :=
  threatCategories.foldl
    (fun acc cp =>
      cp.2.foldl (fun a p => if matchSegs p ml then a + threatSeverity cp.1 else a) acc)
    0

/-- `_analyze_threats`: the `categories` list (one entry per matched pattern,
in loop order). -/
def analyzeThreatsCategories (ml : Str) : List Str :=
  threatCategories.foldl
    (fun acc cp =>
      cp.2.foldl (fun a p => if matchSegs p ml then a ++ [cp.1] else a) acc)
    []

/-- `_check_response_safety`'s `sensitive_patterns`. -/
def sensitivePatterns : List (List Str) :=
  [[strOf "system", strOf "prompt"],
   [strOf "internal", strOf "instruction"],
   [strOf "api", strOf "key"],
   [strOf "database", strOf "connection"],
   [strOf "admin", strOf "password"]]

/-- `_check_response_safety`: `contains_sensitive_info` (the argument is the
already-lowered completion text). -/
def containsSensitiveInfo (respLower : Str) : Bool :=
  sensitivePatterns.any (fun p => matchSegs p respLower)

/-- `_check_response_safety`: `medical_disclaimer_present`. -/
def medicalDisclaimerPresent (respLower : Str) : Bool :=
  if [strOf "recommend", strOf "suggest", strOf "should", strOf "treatment"].any
      (fun w => pyIn w respLower) then
    [[strOf "consult", strOf "doctor"],
     [strOf "medical", strOf "professional"],
     [strOf "not a substitute"],
     [strOf "seek", strOf "medical", strOf "advice"]].any (fun p => matchSegs p respLower)
  else false

/-- `_determine_safety_level` (score in tenths: `>= 0.8` is `8 ≤`,
`>= 0.4` is `4 ≤`). -/
def determineSafetyLevel (score : Nat) (sensitive : Bool) : Str :=
  if 8 ≤ score then strOf "BLOCK"
  else if 4 ≤ score || sensitive then strOf "CAUTION"
  else strOf "SAFE"

/-- `_calculate_safety_confidence` (hundredths; `min(..., 1.0)`). -/
def calcSafetyConfidence (threatsDetected : Bool) (sensitive : Bool) : Nat :=
  min (80 + (if threatsDetected then 15 else 0) + (if sensitive then 10 else 0)) 100

/-- `_determine_security_action`. -/
def determineSecurityAction (level : Str) (categories : List Str) : Str :=
  if level = strOf "BLOCK" then strOf "block_interaction"
  else if level = strOf "CAUTION" then
    if categories.contains (strOf "prompt_injection") then strOf "filter_response"
    else strOf "monitor_closely"
  else strOf "allow_normal_flow"

/-- `_generate_safety_message`. -/
def generateSafetyMessage (level : Str) : Str :=
  if level = strOf "BLOCK" then
    strOf "Security violation detected. This interaction has been blocked for safety reasons."
  else if level = strOf "CAUTION" then
    strOf "Potential security concern identified. Monitoring interaction closely."
  else strOf "Interaction appears safe. No security concerns detected."

/-- The fields of the jailbreak agent's `data` payload that are read by the
orchestrator or the claims (`threat_analysis.suspicious_indicators` and
`response_safety.appropriate_boundaries` are write-only and omitted). -/
structure SecData where
  safety_level : Str
  contains_sensitive_info : Bool
  medical_disclaimer_present : Bool
  blocked_content : Bool
deriving DecidableEq, Repr

/-- `JailbreakAgent.process_response` (`llmText` is the completion text,
`userMsg` the raw inbound message). -/
def jailbreakProc (userMsg : Str) (llmText : Str) : ProcOut SecData :=
  let ml := lowerStr userMsg
  let score := analyzeThreatsScore ml
  let cats := analyzeThreatsCategories ml
  let respLower := lowerStr llmText
  let sensitive := containsSensitiveInfo respLower
  let level := determineSafetyLevel score sensitive
  { message := generateSafetyMessage level
    confidence := calcSafetyConfidence (!cats.isEmpty) sensitive
    action_taken := some (determineSecurityAction level cats)
    data :=
      { safety_level := level
        contains_sensitive_info := sensitive
        medical_disclaimer_present := medicalDisclaimerPresent respLower
        blocked_content := level = strOf "BLOCK" } }

/-! ## Assisting agent (`agents/assisting_agent.py`) -/

/-- `_is_medical_request`'s `medical_keywords`. -/
def medicalKeywords : List Str :=
  [strOf "pain", strOf "ache", strOf "hurt", strOf "hurts", strOf "fever", strOf "sick",
   strOf "ill", strOf "symptom", strOf "feel", strOf "headache",
   strOf "nausea", strOf "dizzy", strOf "tired", strOf "fatigue", strOf "cough",
   strOf "cold", strOf "flu", strOf "infection",
   strOf "bleeding", strOf "swelling", strOf "rash", strOf "itch", strOf "sore",
   strOf "tender", strOf "numb", strOf "weak",
   strOf "broken", strOf "broke", strOf "injured", strOf "injury", strOf "sprained",
   strOf "twisted", strOf "fractured",
   strOf "cut", strOf "burn", strOf "bruised", strOf "swollen", strOf "dislocated",
   strOf "torn", strOf "pulled",
   strOf "doctor", strOf "appointment", strOf "checkup", strOf "consultation",
   strOf "medical", strOf "health",
   strOf "physician", strOf "specialist", strOf "clinic", strOf "hospital",
   strOf "medicine", strOf "medication",
   strOf "prescription", strOf "treatment", strOf "therapy", strOf "surgery",
   strOf "procedure", strOf "urgent care",
   strOf "head", strOf "chest", strOf "stomach", strOf "back", strOf "neck",
   strOf "arm", strOf "leg", strOf "knee", strOf "ankle",
   strOf "shoulder", strOf "wrist", strOf "finger", strOf "toe", strOf "eye",
   strOf "ear", strOf "throat", strOf "heart",
   strOf "lung", strOf "kidney", strOf "liver", strOf "brain", strOf "bone",
   strOf "muscle", strOf "joint",
   strOf "diabetes", strOf "hypertension", strOf "asthma", strOf "allergy",
   strOf "depression", strOf "anxiety",
   strOf "cancer", strOf "arthritis", strOf "migraine", strOf "chronic",
   strOf "acute", strOf "emergency"]

/-- `_is_medical_request`'s `injury_patterns`, each regex expanded into its
alternation-free literal-segment forms (`(my )?` is optional, so
`pain in (my )?` matches exactly when `pain in ` occurs). -/
def injuryPatterns : List (List Str) :=
  [[strOf "my ", strOf " hurts"],
   [strOf "my ", strOf " is broken"],
   [strOf "my ", strOf " is injured"],
   [strOf "my ", strOf " broke"],
   [strOf "my ", strOf " hurt"],
   [strOf "broke my"],
   [strOf "hurt my"],
   [strOf "injured my"],
   [strOf "sprained my"],
   [strOf "twisted my"],
   [strOf "pain in "],
   [sQ "can" "t move my"],
   [sQ "can" "t feel my"],
   [sQ "can" "t use my"],
   [strOf "something wrong with my"],
   [strOf "problem with my"]]

/-- `_is_medical_request`'s `appointment_phrases`. -/
def appointmentPhrases : List Str :=
  [strOf "book appointment", strOf "schedule appointment", strOf "see a doctor",
   strOf "medical help",
   strOf "health issue", strOf "not feeling well", strOf "need to see",
   strOf "medical concern",
   strOf "need medical attention", strOf "visit doctor", strOf "consult doctor"]

/-- `AssistingAgent._is_medical_request` on the lowered message. -/
def isMedicalRequest (ml : Str) : Bool :=
  medicalKeywords.any (fun k => pyIn k ml)
  || injuryPatterns.any (fun p => matchSegs p ml)
  || appointmentPhrases.any (fun p => pyIn p ml)

/-- `_classify_non_medical_request`. -/
def classifyNonMedicalRequest (ml : Str) : Str :=
  if [strOf "movie", strOf "ticket", strOf "cinema", strOf "theater", strOf "film"].any
      (fun w => pyIn w ml) then strOf "entertainment"
  else if [strOf "restaurant", strOf "food", strOf "dinner", strOf "lunch", strOf "table"].any
      (fun w => pyIn w ml) then strOf "dining"
  else if [strOf "travel", strOf "flight", strOf "hotel", strOf "vacation", strOf "trip"].any
      (fun w => pyIn w ml) then strOf "travel"
  else if [strOf "shopping", strOf "buy", strOf "purchase", strOf "store"].any
      (fun w => pyIn w ml) then strOf "shopping"
  else if [strOf "weather", strOf "temperature", strOf "forecast"].any
      (fun w => pyIn w ml) then strOf "weather"
  else if [strOf "time", strOf "date", strOf "calendar", strOf "schedule"].any
      (fun w => pyIn w ml) then strOf "general_info"
  else strOf "other"

/-- `_generate_polite_redirect` (the long template is abridged to a
recognisable stand-in; no claim inspects this text). -/
def politeRedirect (requestType : Str) : Str :=
  strOf "I am specifically designed to help with medical appointments (" ++ requestType
    ++ strOf ")"

/-- `_detect_crisis_indicators`'s suicide keyword list. -/
def suicideKeywords : List Str :=
  [strOf "kill myself", strOf "end my life", strOf "want to die", strOf "suicide",
   strOf "suicidal",
   sQ "don" "t want to live", sQ "life isn" "t worth", strOf "better off dead",
   strOf "thinking of ending", strOf "hurt myself", strOf "harm myself"]

/-- `_detect_crisis_indicators`'s self-harm keyword list. -/
def selfHarmKeywords : List Str :=
  [strOf "cut myself", strOf "hurt myself", strOf "self harm", strOf "self-harm",
   strOf "cutting",
   strOf "burning myself", strOf "hitting myself"]

/-- `_detect_crisis_indicators`'s severe-depression keyword list. -/
def severeDepressionKeywords : List Str :=
  [sQ "can" "t go on", strOf "hopeless", strOf "worthless", strOf "no point",
   strOf "give up",
   sQ "can" "t take it", strOf "everything is dark", strOf "no way out"]

/-- `_detect_crisis_indicators` (one tag per keyword set, in the code's
set order). -/
def detectCrisisIndicators (ml : Str) : List Str :=
  (if suicideKeywords.any (fun k => pyIn k ml) then [strOf "suicidal_ideation"] else [])
  ++ (if selfHarmKeywords.any (fun k => pyIn k ml) then [strOf "self_harm"] else [])
  ++ (if severeDepressionKeywords.any (fun k => pyIn k ml) then [strOf "severe_depression"]
      else [])

/-- `_generate_crisis_response` (templates abridged; no claim inspects them). -/
def crisisResponse (indicators : List Str) : Str :=
  if indicators.contains (strOf "suicidal_ideation") then
    strOf "Crisis support: National Suicide Prevention Lifeline 988"
  else if indicators.contains (strOf "self_harm") then
    strOf "Crisis support: Crisis Text Line, text HOME to 741741"
  else strOf "Crisis support: NAMI HelpLine 1-800-950-6264"

/-- `_extract_patient_info`'s symptom keyword list (18 entries). -/
def assistSymptomKeywords : List Str :=
  [strOf "pain", strOf "ache", strOf "fever", strOf "headache", strOf "nausea",
   strOf "vomiting", strOf "diarrhea",
   strOf "constipation", strOf "cough", strOf "shortness of breath",
   strOf "chest pain", strOf "dizziness",
   strOf "fatigue", strOf "weakness", strOf "rash", strOf "swelling",
   strOf "bleeding", strOf "infection"]

/-- Presence of `(\d+)\s*(day|days|week|weeks|month|months)`: a digit run
whose continuation is spaces then one of the unit words (the plural forms are
prefixed by the singulars, so the three stems suffice for `re.search`). -/
def hasDurationNumberUnit (ml : Str) : Bool :=
  (findAgeRun
    (fun rest =>
      let r := skipWS rest
      (strOf "day").isPrefixOf r || (strOf "week").isPrefixOf r
        || (strOf "month").isPrefixOf r)
    false ml).isSome

/-- Presence of `since\s+(\w+)`: `since`, one-or-more spaces, a word char. -/
def hasSinceWord : Str → Bool
  | [] => false
  | c :: t =>
    (if (strOf "since ").isPrefixOf (c :: t) then
      match skipWS ((c :: t).drop 6) with
      | [] => false
      | d :: _ => isWordChar d
    else false)
    || hasSinceWord t

/-- Presence of `for\s+(\d+)\s*(hour|hours|day|days)`. -/
def hasForDuration : Str → Bool
  | [] => false
  | c :: t =>
    (if (strOf "for ").isPrefixOf (c :: t) then
      let r := skipWS ((c :: t).drop 4)
      let p := takeDigits r
      if p.1.isEmpty then false
      else
        let r2 := skipWS p.2
        (strOf "hour").isPrefixOf r2 || (strOf "day").isPrefixOf r2
    else false)
    || hasForDuration t

/-- `_extract_patient_info`'s duration capture, as a presence flag. -/
def extractDuration (ml : Str) : Bool :=
  hasDurationNumberUnit ml || hasSinceWord ml || hasForDuration ml

/-- Presence of `(\d+)/10`. -/
def hasSlashTen (ml : Str) : Bool :=
  (findAgeRun (fun rest => (strOf "/10").isPrefixOf rest) false ml).isSome

/-- Presence of `(\d+)\s+out\s+of\s+10` (`\s+` needs at least one space). -/
def hasOutOfTen (ml : Str) : Bool :=
  (findAgeRun
    (fun rest =>
      match rest with
      | ' ' :: t =>
        let r := skipWS t
        if (strOf "out").isPrefixOf r then
          match r.drop 3 with
          | ' ' :: t2 =>
            let r2 := skipWS t2
            if (strOf "of").isPrefixOf r2 then
              match r2.drop 2 with
              | ' ' :: t3 => (strOf "10").isPrefixOf (skipWS t3)
              | _ => false
            else false
          | _ => false
        else false
      | _ => false)
    false ml).isSome

/-- `_extract_patient_info`'s severity capture, as a presence flag. -/
def extractSeverity (ml : Str) : Bool :=
  hasSlashTen ml || hasOutOfTen ml
  || [strOf "severe", strOf "mild", strOf "moderate", strOf "extreme",
      strOf "unbearable"].any (fun w => pyIn w ml)

/-- `_extract_patient_info` (the `concerns` list is never written or read). -/
def extractPatientInfo (ml : Str) : ExtractedInfo :=
  { symptoms := assistSymptomKeywords.filter (fun k => pyIn k ml)
    has_duration := extractDuration ml
    has_severity := extractSeverity ml
    medical_history := [] }

/-- `_calculate_confidence` (hundredths). -/
def assistConfidence (info : ExtractedInfo) : Nat :=
  min (50 + (if !info.symptoms.isEmpty then 20 else 0)
    + (if info.has_duration then 15 else 0)
    + (if info.has_severity then 15 else 0)) 100

/-- `_detect_emergency_keywords` on the lowered completion text. -/
def detectEmergencyKeywords (respLower : Str) : Bool :=
  [strOf "emergency room", strOf "call 911", strOf "immediate medical attention",
   strOf "urgent care", strOf "seek immediate help"].any (fun p => pyIn p respLower)

/-- `_determine_action`. -/
def assistAction (info : ExtractedInfo) (llmText : Str) : Str :=
  if detectEmergencyKeywords (lowerStr llmText) then strOf "escalate_to_emergency"
  else if !info.symptoms.isEmpty then strOf "forward_to_triage"
  else if pyIn (strOf "appointment") (lowerStr llmText) then strOf "initiate_booking"
  else strOf "continue_conversation"

/-- `_get_conversation_stage`. -/
def assistStage (info : ExtractedInfo) : Str :=
  if info.symptoms.isEmpty then strOf "initial_contact"
  else if !info.has_duration && !info.has_severity then strOf "gathering_details"
  else strOf "information_complete"

/-- `_detect_urgency_indicators`'s keyword list. -/
def urgentKeywords : List Str :=
  [strOf "emergency", strOf "urgent", strOf "severe", sQ "can" "t breathe",
   strOf "chest pain",
   strOf "unconscious", strOf "bleeding heavily", strOf "suicide", strOf "overdose",
   strOf "heart attack", strOf "stroke", strOf "allergic reaction"]

/-- `_detect_urgency_indicators`. -/
def detectUrgencyIndicators (ml : Str) : List Str :=
  urgentKeywords.filter (fun k => pyIn k ml)

/-- The assisting agent's `data` payload, one constructor per early-return
branch of `process_response` (each models exactly the keys that branch puts
into the dict, which matters for the later `conversation_context.update`). -/
inductive AssistData
  | nonMedical (request_type : Str)
  | crisis (crisis_type : List Str)
  | normal (extracted_info : ExtractedInfo) (conversation_stage : Str)
      (urgency_indicators : List Str)
deriving DecidableEq, Repr

/-- `AssistingAgent.process_response`. -/
def assistProc (userMsg : Str) (llmText : Str) : ProcOut AssistData :=
  let ml := lowerStr userMsg
  if !isMedicalRequest ml then
    let rt := classifyNonMedicalRequest ml
    { message := politeRedirect rt
      confidence := 90
      action_taken := some (strOf "non_medical_redirect")
      data := .nonMedical rt }
  else
    let crisis := detectCrisisIndicators ml
    if !crisis.isEmpty then
      { message := crisisResponse crisis
        confidence := 100
        action_taken := some (strOf "crisis_intervention")
        data := .crisis crisis }
    else
      let info := extractPatientInfo ml
      { message := llmText
        confidence := assistConfidence info
        action_taken := some (assistAction info llmText)
        data := .normal info (assistStage info) (detectUrgencyIndicators ml) }

/-! ## Triage agent (`agents/triage_agent.py`) -/

/-- `emergency_symptoms`. -/
def emergencySymptoms : List Str :=
  [strOf "chest pain", strOf "difficulty breathing", sQ "can" "t breathe",
   strOf "heart attack",
   strOf "stroke", strOf "unconscious", strOf "severe bleeding",
   strOf "allergic reaction",
   strOf "suicide", strOf "overdose", strOf "severe head injury"]

/-- `high_priority_symptoms`. -/
def highPrioritySymptoms : List Str :=
  [strOf "severe pain", strOf "high fever", strOf "persistent vomiting",
   strOf "severe headache",
   strOf "vision loss", strOf "difficulty swallowing", strOf "severe dizziness"]

/-- `medium_priority_symptoms`. -/
def mediumPrioritySymptoms : List Str :=
  [strOf "moderate pain", strOf "fever", strOf "headache", strOf "nausea",
   strOf "diarrhea",
   strOf "rash", strOf "joint pain", strOf "muscle ache"]

/-- `specialty_mapping`, in dict insertion order. -/
def specialtyMapping : List (Str × Str) :=
  [(strOf "heart", strOf "cardiology"),
   (strOf "chest", strOf "cardiology"),
   (strOf "breathing", strOf "pulmonology"),
   (strOf "lung", strOf "pulmonology"),
   (strOf "skin", strOf "dermatology"),
   (strOf "rash", strOf "dermatology"),
   (strOf "bone", strOf "orthopedics"),
   (strOf "joint", strOf "orthopedics"),
   (strOf "headache", strOf "neurology"),
   (strOf "vision", strOf "ophthalmology"),
   (strOf "eye", strOf "ophthalmology"),
   (strOf "ear", strOf "otolaryngology"),
   (strOf "throat", strOf "otolaryngology")]

/-- `TriageAgent._extract_symptoms`'s keyword list (23 entries). -/
def triageSymptomKeywords : List Str :=
  [strOf "pain", strOf "ache", strOf "fever", strOf "headache", strOf "nausea",
   strOf "vomiting", strOf "diarrhea",
   strOf "constipation", strOf "cough", strOf "shortness of breath",
   strOf "chest pain", strOf "dizziness",
   strOf "fatigue", strOf "weakness", strOf "rash", strOf "swelling",
   strOf "bleeding", strOf "infection",
   strOf "sore throat", strOf "runny nose", strOf "congestion", strOf "chills",
   strOf "sweating"]

/-- `_extract_symptoms`: keyword matches plus carried-forward context
symptoms, deduplicated (`list(set(...))`). -/
def triageExtractSymptoms (ml : Str) (ctx : Ctx) : List Str :=
  dedup (triageSymptomKeywords.filter (fun k => pyIn k ml)
    ++ (match ctx.extracted_info with
        | some info => info.symptoms
        | none => []))

/-- `_assess_priority`'s `severity_indicators`. -/
def severityIndicators : List Str :=
  [strOf "severe", strOf "extreme", strOf "unbearable", strOf "worst",
   strOf "excruciating",
   sQ "can" "t", strOf "unable", strOf "impossible"]

/-- `_assess_priority`: the strict first-match cascade. -/
def assessPriority (ml : Str) : Priority :=
  if emergencySymptoms.any (fun k => pyIn k ml) then .emergency
  else if highPrioritySymptoms.any (fun k => pyIn k ml) then .high
  else if severityIndicators.any (fun k => pyIn k ml) then .high
  else if mediumPrioritySymptoms.any (fun k => pyIn k ml) then .medium
  else .low

/-- `_determine_specialty`. -/
def determineSpecialty (symptoms : List Str) (ml : Str) : Option Str :=
  match specialtyMapping.find? (fun kv => pyIn kv.1 ml) with
  | some kv => some kv.2
  | none =>
    if symptoms.any (fun s =>
        [strOf "chest pain", strOf "heart", strOf "cardiac"].contains s) then
      some (strOf "cardiology")
    else if symptoms.any (fun s =>
        [strOf "breathing", strOf "lung", strOf "respiratory"].contains s) then
      some (strOf "pulmonology")
    else if symptoms.any (fun s =>
        [strOf "headache", strOf "neurological", strOf "seizure"].contains s) then
      some (strOf "neurology")
    else some (strOf "general_practice")

/-- `_check_emergency_indicators`'s direct keyword list. -/
def triageEmergencyKeywords : List Str :=
  [strOf "emergency", strOf "911", strOf "ambulance", strOf "life threatening",
   sQ "can" "t breathe", strOf "heart attack", strOf "stroke", strOf "unconscious",
   strOf "severe bleeding", strOf "overdose", strOf "poisoning"]

/-- `_check_emergency_indicators`. -/
def checkEmergencyIndicators (ml : Str) : Bool :=
  triageEmergencyKeywords.any (fun k => pyIn k ml)
  || (pyIn (strOf "chest pain") ml
      && [strOf "breathing", strOf "shortness", strOf "dizzy"].any (fun w => pyIn w ml))

/-- `_calculate_triage_confidence` (hundredths). -/
def triageConfidence (symptoms : List Str) (priority : Priority) : Nat :=
  min (70 + (if 3 ≤ symptoms.length then 10 else 0)
    + (if priority = .emergency then 20 else 0)
    + (if !symptoms.isEmpty then 10 else 0)) 100

/-- `_determine_triage_action`. -/
def triageAction (priority : Priority) (emergency : Bool) : Str :=
  if priority = .emergency || emergency then strOf "escalate_to_emergency"
  else if priority = .high then strOf "schedule_urgent_appointment"
  else if priority = .medium then strOf "schedule_routine_appointment"
  else strOf "provide_self_care_guidance"

/-- `_get_timeframe_recommendation`. -/
def timeframeRecommendation (priority : Priority) : Str :=
  match priority with
  | .emergency => strOf "Immediate - Call 911 or go to ER"
  | .high => strOf "Same day or within 24 hours"
  | .medium => strOf "Within 1-3 days"
  | .low => strOf "Within 1-2 weeks"

/-- `_generate_care_instructions` (abridged to one line per tier; no claim
inspects these texts). -/
def careInstructions (priority : Priority) : List Str :=
  match priority with
  | .emergency => [strOf "Seek immediate emergency medical attention"]
  | .high => [strOf "Contact your healthcare provider today"]
  | .medium => [strOf "Schedule an appointment with your doctor"]
  | .low => [strOf "Monitor symptoms for a few days"]

/-- The triage agent's `data` payload. -/
structure TriageData where
  symptom_analysis : SymptomAnalysis
  emergency_indicators : Bool
  recommended_timeframe : Str
  care_instructions : List Str
deriving DecidableEq, Repr

/-- `TriageAgent.process_response` (the triage message is abridged; no claim
inspects it). -/
def triageProc (userMsg : Str) (ctx : Ctx) (llmText : Str) : ProcOut TriageData :=
  let ml := lowerStr userMsg
  let symptoms := triageExtractSymptoms ml ctx
  let priority := assessPriority ml
  let specialty := determineSpecialty symptoms ml
  let emergency := checkEmergencyIndicators ml
  let sa : SymptomAnalysis :=
    { symptoms := symptoms
      severity := priority
      urgency := emergency
      specialty_required := specialty }
  { message := strOf "Triage assessment: " ++ llmText
    confidence := triageConfidence symptoms priority
    action_taken := some (triageAction priority emergency)
    data :=
      { symptom_analysis := sa
        emergency_indicators := emergency
        recommended_timeframe := timeframeRecommendation priority
        care_instructions := careInstructions priority } }

/-! ## Comorbidity agent (`agents/comorbidity_agent.py`) -/

/-- `high_risk_conditions`. -/
def highRiskConditions : List Str :=
  [strOf "diabetes", strOf "heart disease", strOf "hypertension", strOf "cancer",
   strOf "kidney disease",
   strOf "liver disease", strOf "lung disease", strOf "copd", strOf "asthma",
   strOf "stroke history"]

/-- `immunocompromising_conditions`. -/
def immunocompromisingConditions : List Str :=
  [strOf "hiv", strOf "aids", strOf "chemotherapy", strOf "immunosuppressant",
   strOf "organ transplant",
   strOf "autoimmune", strOf "lupus", strOf "rheumatoid arthritis", strOf "crohns",
   strOf "ulcerative colitis"]

/-- `cardiovascular_risks`. -/
def cardiovascularRisks : List Str :=
  [strOf "high blood pressure", strOf "hypertension", strOf "heart attack",
   strOf "cardiac",
   strOf "coronary artery disease", strOf "atrial fibrillation", strOf "heart failure"]

/-- `respiratory_risks`. -/
def respiratoryRisks : List Str :=
  [strOf "asthma", strOf "copd", strOf "emphysema", strOf "lung disease",
   strOf "pulmonary",
   strOf "breathing problems", strOf "oxygen", strOf "inhaler"]

/-- `_extract_risk_factors`: age capture, the four condition scans (with the
code's tag formats), pregnancy and obesity checks, carried-forward medical
history, deduplicated. -/
def extractRiskFactors (msg : Str) (ctx : Ctx) : List Str :=
  let ml := lowerStr msg
  let ageFactors :=
    match extractAge ml with
    | some age => if 65 ≤ age then [strOf "elderly (age " ++ natToStr age ++ strOf ")"] else []
    | none => []
  let highRisk := highRiskConditions.filter (fun c => pyIn c ml)
  let immuno := (immunocompromisingConditions.filter (fun c => pyIn c ml)).map
    (fun c => strOf "immunocompromised (" ++ c ++ strOf ")")
  let cardio := (cardiovascularRisks.filter (fun c => pyIn c ml)).map
    (fun c => strOf "cardiovascular (" ++ c ++ strOf ")")
  let resp := (respiratoryRisks.filter (fun c => pyIn c ml)).map
    (fun c => strOf "respiratory (" ++ c ++ strOf ")")
  let pregnancy :=
    if [strOf "pregnant", strOf "pregnancy", strOf "expecting"].any (fun w => pyIn w ml)
    then [strOf "pregnancy"] else []
  let obesity :=
    if [strOf "obese", strOf "obesity", strOf "overweight", strOf "bmi"].any
      (fun w => pyIn w ml)
    then [strOf "obesity"] else []
  let history :=
    match ctx.extracted_info with
    | some info => info.medical_history
    | none => []
  dedup (ageFactors ++ highRisk ++ immuno ++ cardio ++ resp ++ pregnancy ++ obesity
    ++ history)

/-- The per-factor score of `_assess_risk_level`'s loop (the branch tests are
substring tests on the factor's tag, exactly as in the code). -/
def riskFactorScore (factor : Str) : Nat :=
  if pyIn (strOf "elderly") factor then 2
  else if pyIn (strOf "immunocompromised") factor then 3
  else if pyIn (strOf "cardiovascular") factor then 2
  else if pyIn (strOf "respiratory") factor then 2
  else if [strOf "diabetes", strOf "cancer", strOf "kidney disease"].contains factor then 2
  else if factor = strOf "pregnancy" then 1
  else 1

/-- `_assess_risk_level`'s accumulated score, including the `+2` bonus for
three or more distinct factors. -/
def comorbidityScore (factors : List Str) : Nat :=
  factors.foldl (fun acc f => acc + riskFactorScore f) 0
    + (if 3 ≤ factors.length then 2 else 0)

/-- `_assess_risk_level`'s tier thresholds. -/
def assessRiskLevel (factors : List Str) : Priority :=
  let score := comorbidityScore factors
  if 6 ≤ score then .high
  else if 3 ≤ score then .medium
  else .low

/-- `_generate_recommendations`. -/
def generateRecommendations (factors : List Str) (level : Priority) : List Str :=
  (if level = .high || level = .emergency then
    [strOf "Close monitoring by healthcare provider recommended",
     strOf "Consider expedited appointment scheduling",
     strOf "Monitor for symptom progression closely"] else [])
  ++ (if factors.any (fun f => pyIn (strOf "cardiovascular") f) then
    [strOf "Monitor blood pressure and heart rate",
     strOf "Consider cardiology consultation"] else [])
  ++ (if factors.any (fun f => pyIn (strOf "respiratory") f) then
    [strOf "Monitor oxygen saturation if available",
     strOf "Have rescue medications readily available"] else [])
  ++ (if factors.any (fun f => pyIn (strOf "immunocompromised") f) then
    [strOf "Take extra precautions to prevent infections",
     strOf "Consider infectious disease consultation if fever present"] else [])
  ++ (if factors.any (fun f => pyIn (strOf "diabetes") f) then
    [strOf "Monitor blood glucose levels closely",
     strOf "Adjust medications as directed by physician"] else [])
  ++ (if factors.contains (strOf "pregnancy") then
    [strOf "Consult with obstetrician regarding symptoms",
     strOf "Avoid medications not approved for pregnancy"] else [])
  ++ (if 2 ≤ factors.length then
    [strOf "Review all current medications with pharmacist",
     strOf "Coordinate care between specialists"] else [])

/-- `_calculate_comorbidity_confidence` (hundredths). -/
def comorbidityConfidence (factors : List Str) (level : Priority) : Nat :=
  min (80 + (if 2 ≤ factors.length then 10 else 0)
    + (if level = .high then 10 else 0)) 100

/-- `_determine_comorbidity_action`. -/
def comorbidityAction (level : Priority) (factors : List Str) : Str :=
  if level = .high then strOf "escalate_to_specialist"
  else if 3 ≤ factors.length then strOf "coordinate_multidisciplinary_care"
  else if level = .medium then strOf "enhanced_monitoring"
  else strOf "standard_care_protocol"

/-- The comorbidity agent's `data` payload (`interaction_risks`,
`monitoring_requirements` and `specialist_referrals` are never read by the
orchestrator and are omitted). -/
structure ComorbData where
  comorbidity_risk : ComorbidityRisk
deriving DecidableEq, Repr

/-- `ComorbidityAgent.process_response` (its message is abridged; no claim
inspects it).  The enhanced context the orchestrator passes merges the
symptom-analysis keys into the conversation context; none of those keys are
read by the extraction, so the context is passed unchanged. -/
def comorbidProc (userMsg : Str) (ctx : Ctx) (llmText : Str) : ProcOut ComorbData :=
  let factors := extractRiskFactors userMsg ctx
  let level := assessRiskLevel factors
  let risk : ComorbidityRisk :=
    { risk_factors := factors
      risk_level := level
      recommendations := generateRecommendations factors level }
  { message := strOf "Comorbidity analysis: " ++ llmText
    confidence := comorbidityConfidence factors level
    action_taken := some (comorbidityAction level factors)
    data := { comorbidity_risk := risk } }

/-! ## Appointment booker (`agents/appointment_booker.py`) -/

/-- One roster entry of `available_doctors`. -/
structure Doctor where
  name : Str
  availability : Str
deriving DecidableEq, Repr

/-- `available_doctors["general_practice"]`. -/
def gpDoctors : List Doctor :=
  [⟨strOf "Dr. Sarah Johnson", strOf "Mon-Fri 9AM-5PM"⟩,
   ⟨strOf "Dr. Michael Chen", strOf "Tue-Sat 10AM-6PM"⟩,
   ⟨strOf "Dr. Emily Rodriguez", strOf "Mon-Wed-Fri 8AM-4PM"⟩]

/-- The `available_doctors` dict, with its `.get(specialty, general_practice)`
fallback. -/
def availableDoctors (specialty : Str) : List Doctor :=
  if specialty = strOf "cardiology" then
    [⟨strOf "Dr. Robert Heart", strOf "Mon-Thu 9AM-3PM"⟩,
     ⟨strOf "Dr. Lisa Cardiac", strOf "Tue-Fri 11AM-5PM"⟩]
  else if specialty = strOf "pulmonology" then
    [⟨strOf "Dr. David Lung", strOf "Mon-Wed-Fri 10AM-4PM"⟩]
  else if specialty = strOf "neurology" then
    [⟨strOf "Dr. Amanda Brain", strOf "Tue-Thu 9AM-3PM"⟩]
  else if specialty = strOf "emergency" then
    [⟨strOf "Dr. Emergency Smith", strOf "24/7"⟩,
     ⟨strOf "Dr. Urgent Care", strOf "24/7"⟩]
  else gpDoctors

/-- Booking requirements (`_extract_booking_requirements`'s dict). -/
structure BookingRequirements where
  specialty : Str
  priority : Priority
  preferred_date : Option Str
  preferred_time : Option Str
  appointment_type : ApptType
  patient_id : Str
deriving DecidableEq, Repr

/-- `_extract_booking_requirements` (`fresh` stands for the generated
`uuid4` prefix used as the default patient id). -/
def extractBookingRequirements (userMsg : Str) (ctx : Ctx) (fresh : Str) :
    BookingRequirements :=
  let ml := lowerStr userMsg
  let base : BookingRequirements :=
    { specialty := strOf "general_practice"
      priority := .low
      preferred_date := none
      preferred_time := none
      appointment_type := .general
      patient_id := fresh }
  let r1 :=
    match ctx.symptom_analysis with
    | none => base
    | some sa =>
      let a := match sa.specialty_required with
        | some sp => { base with specialty := sp }
        | none => base
      let b := { a with priority := sa.severity }
      if sa.urgency then { b with appointment_type := .emergency, priority := .emergency }
      else b
  let r2 :=
    match [strOf "today", strOf "tomorrow", strOf "this week", strOf "next week",
        strOf "monday", strOf "tuesday", strOf "wednesday", strOf "thursday",
        strOf "friday"].find? (fun k => pyIn k ml) with
    | some k => { r1 with preferred_date := some k }
    | none => r1
  let r3 :=
    match [strOf "morning", strOf "afternoon", strOf "evening", strOf "9am",
        strOf "10am", strOf "11am",
        strOf "1pm", strOf "2pm", strOf "3pm", strOf "4pm", strOf "5pm"].find?
        (fun k => pyIn k ml) with
    | some k => { r2 with preferred_time := some k }
    | none => r2
  if [strOf "emergency", strOf "urgent", strOf "asap"].any (fun w => pyIn w ml) then
    { r3 with appointment_type := .emergency, priority := .emergency }
  else if [strOf "followup", strOf "follow up", strOf "check up"].any
      (fun w => pyIn w ml) then
    { r3 with appointment_type := .followup }
  else if [strOf "specialist", strOf "referral"].any (fun w => pyIn w ml) then
    { r3 with appointment_type := .specialist }
  else r3

/-- Underscore-to-space then Python `str.title()`
(`specialty.replace("_", " ").title()`). -/
def titleCaseGo (prevCased : Bool) : Str → Str
  | [] => []
  | c :: t =>
    if c.isAlpha then
      (if prevCased then c.toLower else c.toUpper) :: titleCaseGo true t
    else c :: titleCaseGo false t

/-- `specialty.replace("_", " ").title()`. -/
def titleSpec (s : Str) : Str :=
  titleCaseGo false (s.map (fun c => if c = '_' then ' ' else c))

/-- Dates are embedded as absolute day numbers; `fmtDate` is the stored
`strftime("%Y-%m-%d")` string, modelled as the 8-digit zero-padded decimal of
the day number.  Both renderings are strictly monotone for lexicographic
string comparison, which is all the code uses dates for (tuple sort keys and
the `this week` filter).  Weekdays follow the convention day `% 7 < 5`
(quantifying over the base day covers every alignment of Python's
`Monday = 0`). -/
def fmtDate (d : Nat) : Str :=
  List.replicate (8 - (natToStr d).length) (Char.ofNat 48) ++ natToStr d

/-- `_generate_slots_for_day`'s emergency times (30-minute granularity). -/
def emergencyTimes : List Str :=
  [strOf "8:00 AM", strOf "8:30 AM", strOf "9:00 AM", strOf "9:30 AM",
   strOf "10:00 AM",
   strOf "10:30 AM", strOf "11:00 AM", strOf "11:30 AM", strOf "2:00 PM",
   strOf "2:30 PM"]

/-- `_generate_slots_for_day`'s regular times (hourly granularity). -/
def hourlyTimes : List Str :=
  [strOf "9:00 AM", strOf "10:00 AM", strOf "11:00 AM", strOf "1:00 PM",
   strOf "2:00 PM", strOf "3:00 PM", strOf "4:00 PM"]

/-- `_generate_slots_for_day`. -/
def genSlotsForDay (d : Nat) (doc : Doctor) (specialty : Str) (emergency : Bool) :
    List AppointmentSlot :=
  (if emergency then emergencyTimes else hourlyTimes).map
    (fun t =>
      { date := fmtDate d
        time := t
        doctor := doc.name
        specialty := titleSpec specialty
        available := true })

/-- The Python sort key `(x.date, x.time)` under lexicographic string
comparison. -/
def slotLe (a b : AppointmentSlot) : Prop :=
  toLex (a.date, a.time) ≤ toLex (b.date, b.time)

instance : DecidableRel slotLe := fun a b => by unfold slotLe; infer_instance

instance : IsTotal AppointmentSlot slotLe :=
  ⟨fun a b => le_total (toLex (a.date, a.time)) (toLex (b.date, b.time))⟩

instance : IsTrans AppointmentSlot slotLe :=
  ⟨fun _ _ _ h1 h2 => le_trans h1 h2⟩

/-- `_filter_by_date_preference`. -/
def filterByDatePreference (today : Nat) (slots : List AppointmentSlot)
    (p : Str) : List AppointmentSlot :=
  if p = strOf "today" then slots.filter (fun s => s.date = fmtDate today)
  else if p = strOf "tomorrow" then slots.filter (fun s => s.date = fmtDate (today + 1))
  else if p = strOf "this week" then
    slots.filter (fun s => decide (s.date ≤ fmtDate (today + 7)))
  else slots

/-- `int(slot.time.split(":")[0])`. -/
def slotHour (time : Str) : Nat := digitsToNat (time.takeWhile (fun c => c ≠ ':'))

/-- `_filter_by_time_preference`. -/
def filterByTimePreference (slots : List AppointmentSlot) (p : Str) :
    List AppointmentSlot :=
  if p = strOf "morning" then slots.filter (fun s => pyIn (strOf "AM") s.time)
  else if p = strOf "afternoon" then
    slots.filter (fun s => pyIn (strOf "PM") s.time && slotHour s.time < 5)
  else if p = strOf "evening" then
    slots.filter (fun s => pyIn (strOf "PM") s.time && 5 ≤ slotHour s.time)
  else slots

/-- `_find_available_slots`: the per-priority generation loops, the two
preference filters, the `(date, time)` sort, and the cap at 10. -/
def findAvailableSlots (today : Nat) (req : BookingRequirements) :
    List AppointmentSlot :=
  let doctors := availableDoctors req.specialty
  let base :=
    match req.priority with
    | .emergency =>
      (List.range 2).flatMap (fun i =>
        doctors.flatMap (fun doc =>
          if pyIn (strOf "24/7") doc.availability || i = 0 then
            genSlotsForDay (today + i) doc req.specialty true
          else []))
    | .high =>
      (List.range 3).flatMap (fun i =>
        doctors.flatMap (fun doc => genSlotsForDay (today + i) doc req.specialty false))
    | .medium =>
      (List.range 7).flatMap (fun i =>
        doctors.flatMap (fun doc =>
          if (today + i) % 7 < 5 then genSlotsForDay (today + i) doc req.specialty false
          else []))
    | .low =>
      (List.range 14).flatMap (fun i =>
        doctors.flatMap (fun doc =>
          if (today + i) % 7 < 5 then genSlotsForDay (today + i) doc req.specialty false
          else []))
  let base1 :=
    match req.preferred_date with
    | some p => filterByDatePreference today base p
    | none => base
  let base2 :=
    match req.preferred_time with
    | some p => filterByTimePreference base1 p
    | none => base1
  (List.insertionSort slotLe base2).take 10

/-- `_generate_booking_if_requested`. -/
def generateBookingIfRequested (ml : Str) (slots : List AppointmentSlot)
    (req : BookingRequirements) (fresh : Str) : Option AppointmentBooking :=
  if [strOf "book", strOf "schedule", strOf "confirm", strOf "reserve",
      strOf "appointment"].any (fun k => pyIn k ml) then
    match slots with
    | [] => none
    | slot :: _ =>
      some
        { appointment_id := strOf "APT-" ++ fresh
          patient_id := req.patient_id
          date := slot.date
          time := slot.time
          doctor := slot.doctor
          specialty := slot.specialty
          appointment_type := req.appointment_type
          confirmed := true }
  else none

/-- `_is_valid_medical_request`'s own medical keyword list. -/
def bookerMedicalKeywords : List Str :=
  [strOf "doctor", strOf "physician", strOf "medical", strOf "health",
   strOf "appointment", strOf "consultation",
   strOf "checkup", strOf "specialist", strOf "clinic", strOf "hospital",
   strOf "nurse", strOf "therapist",
   strOf "pain", strOf "ache", strOf "hurt", strOf "sick", strOf "ill",
   strOf "broken", strOf "broke", strOf "injured", strOf "injury",
   strOf "symptom", strOf "fever", strOf "headache", strOf "nausea",
   strOf "dizzy", strOf "tired", strOf "fatigue",
   strOf "cough", strOf "cold", strOf "flu", strOf "infection", strOf "bleeding",
   strOf "swelling", strOf "rash",
   strOf "leg", strOf "arm", strOf "back", strOf "neck", strOf "head",
   strOf "chest", strOf "stomach", strOf "knee", strOf "ankle",
   strOf "shoulder", strOf "wrist", strOf "finger", strOf "toe", strOf "eye",
   strOf "ear", strOf "throat",
   strOf "treatment", strOf "medicine", strOf "prescription", strOf "therapy",
   strOf "surgery", strOf "procedure",
   strOf "diagnosis", strOf "emergency", strOf "urgent", strOf "chronic",
   strOf "acute"]

/-- `_is_valid_medical_request`'s injury regexes, expanded. -/
def bookerInjuryPatterns : List (List Str) :=
  [[strOf "my ", strOf " hurts"],
   [strOf "my ", strOf " is broken"],
   [strOf "my ", strOf " is injured"],
   [strOf "broke my"],
   [strOf "hurt my"],
   [strOf "pain in"],
   [strOf "injured my"],
   [strOf "twisted my"],
   [strOf "sprained my"]]

/-- `_is_valid_medical_request`'s non-medical exclusion keywords. -/
def bookerNonMedicalKeywords : List Str :=
  [strOf "movie", strOf "ticket", strOf "cinema", strOf "theater", strOf "film",
   strOf "restaurant", strOf "food", strOf "dinner",
   strOf "travel", strOf "flight", strOf "hotel", strOf "shopping",
   strOf "weather", strOf "entertainment", strOf "concert",
   strOf "show", strOf "game", strOf "sports", strOf "vacation"]

/-- `AppointmentBookerAgent._is_valid_medical_request`. -/
def bookerValidMedical (userMsg : Str) (ctx : Ctx) : Bool :=
  if ctx.is_medical = some false then false
  else if ctx.symptom_analysis.isSome
      || !(match ctx.extracted_info with
          | some info => info.symptoms
          | none => []).isEmpty then true
  else if ctx.is_medical = some true then true
  else
    let ml := lowerStr userMsg
    (bookerMedicalKeywords.any (fun k => pyIn k ml)
      || bookerInjuryPatterns.any (fun p => matchSegs p ml))
    && !(bookerNonMedicalKeywords.any (fun k => pyIn k ml))

/-- `_calculate_booking_confidence` (hundredths, clamped to `[0.5, 1.0]`). -/
def bookingConfidence (slots : List AppointmentSlot) (req : BookingRequirements) :
    Nat :=
  let up := 80 + (if 5 ≤ slots.length then 10 else 0)
    + (if req.priority = .emergency then 10 else 0)
  let down :=
    if [strOf "general_practice", strOf "cardiology", strOf "pulmonology",
        strOf "neurology", strOf "emergency"].contains req.specialty then 0 else 20
  max (min (up - down) 100) 50

/-- `_determine_booking_action`. -/
def bookingAction (booking : Option AppointmentBooking)
    (slots : List AppointmentSlot) : Str :=
  match booking with
  | some _ => strOf "appointment_booked"
  | none => if !slots.isEmpty then strOf "slots_provided" else strOf "no_slots_available"

/-- The booker's `data` payload as read by the orchestrator
(`booking_requirements` and `next_available` are never read back). -/
structure BookerData where
  available_slots : List AppointmentSlot := []
  booking : Option AppointmentBooking := none
deriving DecidableEq, Repr

/-- `AppointmentBookerAgent.process_response` (its message is abridged; no
claim inspects it). -/
def bookerProc (today : Nat) (fresh : Str) (userMsg : Str) (ctx : Ctx)
    (llmText : Str) : ProcOut BookerData :=
  if !bookerValidMedical userMsg ctx then
    { message := strOf "I can only help with medical appointments."
      confidence := 90
      action_taken := some (strOf "invalid_medical_request")
      data := {} }
  else
    let req := extractBookingRequirements userMsg ctx fresh
    let slots := findAvailableSlots today req
    let booking := generateBookingIfRequested (lowerStr userMsg) slots req fresh
    { message := strOf "Appointment scheduling: " ++ llmText
      confidence := bookingConfidence slots req
      action_taken := some (bookingAction booking slots)
      data := { available_slots := slots, booking := booking } }

/-! ## Orchestrator (`agents/agent_graph_simple.py`) -/

/-- The stage-invocation wrapper `BaseAgent.invoke`: the external completion
call is a parameter (`.ok text` for a completion, `.error e` for a raised
transport/quota failure).  A failure is caught inside `invoke` and turned
into an error payload whose `data` dict carries only the error
(`data := none` here); it is never re-raised. -/
structure InvokeOut (α : Type) where
  agent_name : Str
  message : Str
  confidence : Nat
  action_taken : Option Str
  data : Option α
deriving Repr

/-- `BaseAgent.invoke`. -/
def invokeAgent (name : Str) (llm : Except Str Str) (proc : Str → ProcOut α) :
    InvokeOut α :=
  match llm with
  | .error e =>
    { agent_name := name
      message := strOf "Error processing request: OpenAI API call failed: " ++ e
      confidence := 0
      action_taken := some (strOf "error_handling")
      data := none }
  | .ok t =>
    let r := proc t
    { agent_name := name
      message := r.message
      confidence := r.confidence
      action_taken := r.action_taken
      data := some r.data }

/-- `AgentResponse(**stage_result)` as stored into the workflow state. -/
def toAgentResponse (r : InvokeOut α) : AgentResponse :=
  ⟨r.agent_name, r.message, r.confidence, r.action_taken⟩

/-- The per-turn completion results for the five stages, in pipeline order. -/
structure Oracles where
  sec : Except Str Str
  assist : Except Str Str
  triage : Except Str Str
  comorbid : Except Str Str
  book : Except Str Str

/-- The orchestrator's workflow `state` dict. -/
structure WState where
  patient_request : PatientRequest
  conversation_context : Ctx
  agent_responses : List AgentResponse
  security_status : Str
  symptom_analysis : Option SymptomAnalysis
  comorbidity_risk : Option ComorbidityRisk
  appointment_data : BookerData
  requires_emergency : Bool
  next_steps : List Str
  final_message : Str

/-- State initialisation in `process_request` (the lines that copy
`conversation_history` / `conversation_stage` / `available_slots` from the
session dict back into itself are the identity under this record model). -/
def initState (request : PatientRequest) (sc : Option Ctx) : WState :=
  let c := sc.getD {}
  { patient_request := request
    conversation_context := c
    agent_responses := []
    security_status := strOf "unknown"
    symptom_analysis := c.symptom_analysis
    comorbidity_risk := c.comorbidity_risk
    appointment_data := {}
    requires_emergency := false
    next_steps := []
    final_message := [] }

/-- `_is_booking_from_previous_slots`'s `booking_keywords`. -/
def bookingKeywords : List Str :=
  [strOf "book", strOf "schedule", strOf "confirm", strOf "reserve", strOf "choose",
   strOf "select", strOf "pick"]

/-- `_is_booking_from_previous_slots`'s hard-coded doctor name fragments. -/
def doctorNames : List Str :=
  [strOf "michael", strOf "chen", strOf "sarah", strOf "johnson", strOf "emily",
   strOf "rodriguez"]

/-- The `slot_references` list of `_is_booking_from_previous_slots`
(a slot is appended once per matching condition, as in the code; a missing
`time`/`date` key defaults to the empty string, which is a substring of every
message). -/
def slotReferences (slots : List CtxSlot) (ml : Str) : List CtxSlot :=
  slots.flatMap (fun slot =>
    (if (splitWS (lowerStr (slot.doctor.getD []))).any (fun part => pyIn part ml)
      then [slot] else [])
    ++ (if pyIn (lowerStr (slot.time.getD [])) ml then [slot] else [])
    ++ (if pyIn (slot.date.getD []) ml then [slot] else []))

/-- `_is_booking_from_previous_slots` (a `None` or empty session dict returns
`False`; an empty dict has no `available_slots`, so the two cases coincide). -/
def isBookingFromPrevSlots (request : PatientRequest) (sc : Option Ctx) : Bool :=
  match sc with
  | none => false
  | some ctx =>
    if ctx.available_slots.isEmpty then false
    else
      let ml := lowerStr request.message
      let hasIntent := bookingKeywords.any (fun k => pyIn k ml)
      let refs := slotReferences ctx.available_slots ml
      if !(findNums ml).isEmpty && hasIntent then true
      else
        hasIntent
          && (!refs.isEmpty || doctorNames.any (fun n => pyIn n ml)
              || pyIn (strOf "appointment") ml)

/-- `_handle_slot_booking` step (a): doctor name-fragment match
(`doctor.lower().replace("dr. ", "").split()`). -/
def docNameSelect (slots : List CtxSlot) (ml : Str) : Option CtxSlot :=
  slots.find? (fun slot =>
    (splitWS (stripDr (lowerStr (slot.doctor.getD [])))).any (fun part => pyIn part ml))

/-- `_handle_slot_booking` step (b): the first `\b\d+\b` number as a 1-based
index (an out-of-range or zero index selects nothing). -/
def numberSelect (slots : List CtxSlot) (ml : Str) : Option CtxSlot :=
  match findNums ml with
  | [] => none
  | nstr :: _ =>
    let n := digitsToNat nstr
    if 1 ≤ n then slots[n - 1]? else none

/-- `_handle_slot_booking` step (c): space-stripped time-string containment
(a missing `time` key defaults to the empty string, which matches). -/
def timeSelect (slots : List CtxSlot) (ml : Str) : Option CtxSlot :=
  slots.find? (fun slot =>
    pyIn (removeSpaces (lowerStr (slot.time.getD []))) (removeSpaces ml))

/-- `_handle_slot_booking` fallback: default to the first slot when booking
language is present. -/
def defaultSelect (slots : List CtxSlot) (ml : Str) : Option CtxSlot :=
  if [strOf "book", strOf "schedule", strOf "confirm", strOf "yes"].any
      (fun w => pyIn w ml) then slots.head?
  else none

/-- `_handle_slot_booking`'s slot disambiguation: the four attempts in the
code's order. -/
def selectSlot (slots : List CtxSlot) (ml : Str) : Option CtxSlot :=
  match docNameSelect slots ml with
  | some s => some s
  | none =>
    match numberSelect slots ml with
    | some s => some s
    | none =>
      match timeSelect slots ml with
      | some s => some s
      | none => defaultSelect slots ml

/-- The confirmed-booking message (abridged to the header and the detail
lines; no claim inspects the full template). -/
def bookingConfirmedMessage (b : AppointmentBooking) : Str :=
  strOf "APPOINTMENT CONFIRMED: " ++ b.appointment_id ++ strOf ", " ++ b.date
    ++ strOf " at " ++ b.time ++ strOf " with " ++ b.doctor

/-- The clarification message's per-slot lines
(`f"{i}. {slot['date']} at {slot['time']} with {slot['doctor']}\n"`;
bracket access raises on a missing key). -/
def clarificationLines (i : Nat) : List CtxSlot → Except Str Str
  | [] => .ok []
  | s :: t => do
    let d ← dget s.date "date"
    let tm ← dget s.time "time"
    let doc ← dget s.doctor "doctor"
    let rest ← clarificationLines (i + 1) t
    .ok (natToStr i ++ strOf ". " ++ d ++ strOf " at " ++ tm ++ strOf " with " ++ doc
      ++ Char.ofNat 10 :: rest)

/-- Validation of a session slot dict against the response model
(`AppointmentResponse(available_slots=...)` re-validates the dicts; a missing
field raises there).  The `available` flag defaults to true. -/
def coerceSlot (s : CtxSlot) : Except Str AppointmentSlot := do
  let d ← dget s.date "date"
  let tm ← dget s.time "time"
  let doc ← dget s.doctor "doctor"
  let sp ← dget s.specialty "specialty"
  .ok { date := d, time := tm, doctor := doc, specialty := sp, available := true }

/-- `request.patient_id or str(uuid.uuid4())[:8]` (Python `or`: an absent or
empty id falls back to the generated one, represented by `fresh`). -/
def patientIdOf (request : PatientRequest) (fresh : Str) : Str :=
  match request.patient_id with
  | some p => if p.isEmpty then fresh else p
  | none => fresh

/-- `_handle_slot_booking` (`fresh` stands for the generated `uuid4` hex used
in the appointment id and the fallback patient id). -/
def handleSlotBooking (fresh : Str) (request : PatientRequest) (ctx : Ctx) :
    Except Str AppointmentResponse :=
  let slots := ctx.available_slots
  let ml := lowerStr request.message
  match selectSlot slots ml with
  | some slot => do
    let d ← dget slot.date "date"
    let tm ← dget slot.time "time"
    let doc ← dget slot.doctor "doctor"
    let sp ← dget slot.specialty "specialty"
    let booking : AppointmentBooking :=
      { appointment_id := strOf "APT-" ++ fresh
        patient_id := patientIdOf request fresh
        date := d
        time := tm
        doctor := doc
        specialty := sp
        appointment_type := .general
        confirmed := true }
    .ok
      { message := bookingConfirmedMessage booking
        agent_responses :=
          [{ agent_name := strOf "Appointment Booker"
             message := strOf "Successfully booked appointment with " ++ doc
             confidence := 100
             action_taken := some (strOf "slot_booking_confirmed") }]
        booking := some booking
        available_slots := []
        next_steps :=
          [strOf "Arrive 15 minutes early",
           strOf "Bring insurance card and ID",
           strOf "Prepare questions for your doctor"]
        requires_emergency := false
        session_id := request.session_id }
  | none => do
    let lines ← clarificationLines 1 slots
    let rslots ← slots.mapM coerceSlot
    .ok
      { message :=
          strOf "I need clarification on which slot you would prefer. Available options: "
            ++ lines
        agent_responses :=
          [{ agent_name := strOf "Appointment Booker"
             message := strOf "Requesting clarification for slot selection"
             confidence := 80
             action_taken := some (strOf "clarification_requested") }]
        available_slots := rslots
        next_steps := [strOf "Specify which appointment slot you prefer"]
        requires_emergency := false
        session_id := request.session_id }

/-- `_security_check`: the safety level is read from the stage's `data` dict
with default `"SAFE"` (so a failed completion call yields `"SAFE"`). -/
def securityStatusOf (r : InvokeOut SecData) : Str :=
  match r.data with
  | some d => d.safety_level
  | none => strOf "SAFE"

/-- `_security_check`. -/
def securityCheck (llm : Except Str Str) (st : WState) : WState :=
  let r := invokeAgent (strOf "Jailbreak Agent") llm
    (jailbreakProc st.patient_request.message)
  { st with
    agent_responses := st.agent_responses ++ [toAgentResponse r]
    security_status := securityStatusOf r }

/-- `conversation_context.update(assistance_response["data"])`: exactly the
keys each branch of the assisting agent put into its `data` dict are
overwritten (the non-medical branch's `request_type` key is never read and is
not carried). -/
def ctxUpdateAssist (c : Ctx) : Option AssistData → Ctx
  | none => c
  | some (.nonMedical _) =>
    { c with is_medical := some false, conversation_stage := strOf "redirect_to_medical" }
  | some (.crisis ct) =>
    { c with is_medical := some true, crisis_type := ct,
             conversation_stage := strOf "crisis_support" }
  | some (.normal info stage urg) =>
    { c with is_medical := some true, extracted_info := some info,
             conversation_stage := stage, urgency_indicators := urg }

/-- `_initial_assistance`. -/
def initialAssistance (llm : Except Str Str) (st : WState) : WState :=
  let r := invokeAgent (strOf "Assisting Agent") llm
    (assistProc st.patient_request.message)
  { st with
    agent_responses := st.agent_responses ++ [toAgentResponse r]
    conversation_context := ctxUpdateAssist st.conversation_context r.data }

/-- `_triage_assessment` (on a failed stage the defaults are the empty dict
and `False`, overwriting any carried-forward analysis). -/
def triageAssessment (llm : Except Str Str) (st : WState) : WState :=
  let r := invokeAgent (strOf "Triage Agent") llm
    (triageProc st.patient_request.message st.conversation_context)
  match r.data with
  | some d =>
    { st with
      agent_responses := st.agent_responses ++ [toAgentResponse r]
      symptom_analysis := some d.symptom_analysis
      requires_emergency := d.emergency_indicators }
  | none =>
    { st with
      agent_responses := st.agent_responses ++ [toAgentResponse r]
      symptom_analysis := none
      requires_emergency := false }

/-- `_comorbidity_analysis` (the enhanced context's extra keys are never read
by the comorbidity extraction; see `comorbidProc`). -/
def comorbidityAnalysis (llm : Except Str Str) (st : WState) : WState :=
  let r := invokeAgent (strOf "Comorbidity Agent") llm
    (comorbidProc st.patient_request.message st.conversation_context)
  match r.data with
  | some d =>
    { st with
      agent_responses := st.agent_responses ++ [toAgentResponse r]
      comorbidity_risk := some d.comorbidity_risk }
  | none =>
    { st with
      agent_responses := st.agent_responses ++ [toAgentResponse r]
      comorbidity_risk := none }

/-- `_appointment_booking` (on a failed stage `appointment_data` keeps the
dict-`get` defaults: no slots, no booking). -/
def appointmentBooking (today : Nat) (fresh : Str) (llm : Except Str Str)
    (st : WState) : WState :=
  let fullCtx :=
    { st.conversation_context with
      symptom_analysis := st.symptom_analysis
      comorbidity_risk := st.comorbidity_risk }
  let r := invokeAgent (strOf "Appointment Booker") llm
    (bookerProc today fresh st.patient_request.message fullCtx)
  { st with
    agent_responses := st.agent_responses ++ [toAgentResponse r]
    appointment_data := r.data.getD {} }

/-- The fixed emergency-protocol text of `_emergency_route` (abridged to its
header and first action lines; the claims only test for this fixed text). -/
def emergencyProtocolText : Str :=
  strOf "EMERGENCY PROTOCOL ACTIVATED: Based on your symptoms, you may require immediate medical attention. Call 911 if experiencing severe symptoms; go to the nearest Emergency Room."

/-- `_emergency_route`. -/
def emergencyRoute (st : WState) : WState :=
  { st with
    agent_responses := st.agent_responses
      ++ [{ agent_name := strOf "Emergency Protocol"
            message := emergencyProtocolText
            confidence := 100
            action_taken := some (strOf "emergency_routing") }]
    requires_emergency := true
    next_steps :=
      [strOf "Call 911 if experiencing severe symptoms",
       strOf "Go to nearest Emergency Room",
       strOf "Contact emergency services",
       strOf "Do not delay seeking immediate care"] }

/-- `_should_route_to_emergency`. -/
def shouldRouteToEmergency (st : WState) : Bool :=
  !st.conversation_context.urgency_indicators.isEmpty
    || !st.conversation_context.crisis_type.isEmpty

/-- `_has_symptoms`. -/
def hasSymptoms (st : WState) : Bool :=
  if !(st.conversation_context.is_medical.getD true) then false
  else
    !(match st.conversation_context.extracted_info with
      | some info => info.symptoms
      | none => []).isEmpty

/-- `_is_booking_request_with_context`. -/
def isBookingRequestWithContext (st : WState) : Bool :=
  if st.agent_responses.any (fun r =>
      r.agent_name = strOf "Assisting Agent"
        && r.action_taken = some (strOf "initiate_booking")) then true
  else
    !st.conversation_context.available_slots.isEmpty
      && st.conversation_context.booking_intent

/-- `_is_non_medical_request`. -/
def isNonMedicalRequest (st : WState) : Bool :=
  !(st.conversation_context.is_medical.getD true)

/-- `_needs_comorbidity_analysis`. -/
def needsComorbidityAnalysis (st : WState) : Bool :=
  match st.symptom_analysis with
  | some sa => sa.severity = .high || sa.severity = .medium || 2 ≤ sa.symptoms.length
  | none => false

/-- `_generate_next_steps`. -/
def generateNextSteps (st : WState) : List Str :=
  let sevSteps :=
    match st.symptom_analysis with
    | some sa =>
      if sa.severity = .high then
        [strOf "Schedule appointment within 24-48 hours",
         strOf "Monitor symptoms closely"]
      else if sa.severity = .medium then
        [strOf "Schedule appointment within 1 week",
         strOf "Track symptom progression"]
      else
        [strOf "Schedule routine appointment",
         strOf "Continue monitoring symptoms"]
    | none =>
      [strOf "Schedule routine appointment",
       strOf "Continue monitoring symptoms"]
  let slotSteps :=
    if !st.appointment_data.available_slots.isEmpty then
      [strOf "Choose preferred appointment slot",
       strOf "Confirm appointment booking"]
    else []
  let comorbidSteps :=
    match st.comorbidity_risk with
    | some cr => cr.recommendations.take 2
    | none => []
  sevSteps ++ slotSteps ++ comorbidSteps

/-- `_generate_final_message`. -/
def generateFinalMessage (st : WState) : Str :=
  if st.requires_emergency then
    strOf "Emergency care recommended. Please seek immediate medical attention."
  else
    match st.agent_responses.find? (fun r => r.agent_name = strOf "Appointment Booker")
      with
    | some r => r.message
    | none =>
      strOf "Thank you for using our appointment booking system. Our agents have assessed your request and provided recommendations above."

/-- `_finalize_response`. -/
def finalizeResponse (st : WState) : WState :=
  let st1 :=
    if !st.requires_emergency then { st with next_steps := generateNextSteps st }
    else st
  { st1 with final_message := generateFinalMessage st1 }

/-- `_create_response`. -/
def createResponse (st : WState) : AppointmentResponse :=
  { message := st.final_message
    agent_responses := st.agent_responses
    symptom_analysis := st.symptom_analysis
    comorbidity_risk := st.comorbidity_risk
    available_slots := st.appointment_data.available_slots
    booking := st.appointment_data.booking
    next_steps := st.next_steps
    requires_emergency := st.requires_emergency
    session_id := st.patient_request.session_id }

/-- `_create_blocked_response`. -/
def createBlockedResponse (st : WState) : AppointmentResponse :=
  { message :=
      strOf "Your request has been blocked for security reasons. Please contact support if you believe this is an error."
    agent_responses := st.agent_responses
    available_slots := []
    next_steps := [strOf "Contact support for assistance"]
    requires_emergency := false
    session_id := st.patient_request.session_id }

/-- `_create_error_response` (the error path passes no `session_id`, so the
model default `None` applies). -/
def createErrorResponse (e : Str) : AppointmentResponse :=
  { message := strOf "An error occurred while processing your request: " ++ e
    agent_responses := []
    available_slots := []
    next_steps := [strOf "Please try again or contact support"]
    requires_emergency := false
    session_id := none }

/-- The body of `process_request`'s `try` block: everything up to the
`except` boundary.  The one operation that can raise in this model is the
dict bracket access inside `_handle_slot_booking`; every stage call absorbs
its own completion failure inside `invoke`. -/
def processCore (today : Nat) (fresh : Str) (os : Oracles) (request : PatientRequest)
    (session_context : Option Ctx) : Except Str AppointmentResponse :=
  let st0 := initState request session_context
  if isBookingFromPrevSlots request session_context then
    handleSlotBooking fresh request (session_context.getD {})
  else
    let st1 := securityCheck os.sec st0
    if st1.security_status = strOf "BLOCK" then .ok (createBlockedResponse st1)
    else
      let st2 := initialAssistance os.assist st1
      if isNonMedicalRequest st2 then .ok (createResponse (finalizeResponse st2))
      else if isBookingRequestWithContext st2 then
        .ok (createResponse (finalizeResponse (appointmentBooking today fresh os.book st2)))
      else if shouldRouteToEmergency st2 then
        .ok (createResponse (emergencyRoute st2))
      else if hasSymptoms st2 || st2.symptom_analysis.isNone then
        let st4 := triageAssessment os.triage st2
        if st4.requires_emergency then .ok (createResponse (emergencyRoute st4))
        else
          let st5 :=
            if needsComorbidityAnalysis st4 then comorbidityAnalysis os.comorbid st4
            else st4
          .ok (createResponse (finalizeResponse (appointmentBooking today fresh os.book st5)))
      else
        .ok (createResponse (finalizeResponse (appointmentBooking today fresh os.book st2)))

/-- `process_request`: the `try`/`except` turn boundary. -/
def processRequest (today : Nat) (fresh : Str) (os : Oracles)
    (request : PatientRequest) (session_context : Option Ctx) :
    AppointmentResponse :=
  match processCore today fresh os request session_context with
  | .ok r => r
  | .error e => createErrorResponse e

/-! ## Session store update (`main_simple.py`) -/

/-- `slot.dict()` as persisted into the session context. -/
def slotToCtx (s : AppointmentSlot) : CtxSlot :=
  { doctor := some s.doctor
    date := some s.date
    time := some s.time
    specialty := some s.specialty }

/-- `update_session_context` (the per-turn history record's timestamp and
agent-response dump are never read back and are omitted from `TurnRec`). -/
def updateSessionContext (ctx : Ctx) (response : AppointmentResponse)
    (request : PatientRequest) : Ctx :=
  let c1 : Ctx :=
    { ctx with
      conversation_history := ctx.conversation_history
        ++ [{ user_message := request.message, assistant_response := response.message }] }
  let c2 : Ctx :=
    match response.symptom_analysis with
    | some sa => { c1 with symptom_analysis := some sa }
    | none => c1
  let c3 : Ctx :=
    match response.comorbidity_risk with
    | some cr => { c2 with comorbidity_risk := some cr }
    | none => c2
  let c4 : Ctx :=
    if !response.available_slots.isEmpty then
      { c3 with available_slots := response.available_slots.map slotToCtx }
    else c3
  let c5 : Ctx :=
    if !response.available_slots.isEmpty then
      { c4 with conversation_stage := strOf "slots_provided" }
    else if response.booking.isSome then
      { c4 with conversation_stage := strOf "booking_confirmed" }
    else if response.requires_emergency then
      { c4 with conversation_stage := strOf "emergency" }
    else c4
  if 10 < c5.conversation_history.length then
    { c5 with
      conversation_history :=
        c5.conversation_history.drop (c5.conversation_history.length - 10) }
  else c5

/-! ## Spec-side definitions (for refinement comparison) and fixtures -/

/-- The spec's §4.2 risk score, written as the claim states it: the sum of
the fixed category severities (0.6 / 0.8 / 0.9 / 0.7, in tenths) over all
matched patterns of the four categories. -/
def specRiskScore (ml : Str) : Nat :=
  6 * piPatterns.countP (fun p => matchSegs p ml)
    + 8 * dePatterns.countP (fun p => matchSegs p ml)
    + 9 * mfPatterns.countP (fun p => matchSegs p ml)
    + 7 * haPatterns.countP (fun p => matchSegs p ml)

/-- Claim C3's booking-intent disjunction, written as the claim states it: a
booking keyword, OR a bare number, OR a known doctor first/last name
fragment, OR a stored slot's time or date string appearing verbatim. -/
def specSlotResolutionIntent (request : PatientRequest) (ctx : Ctx) : Bool :=
  let ml := lowerStr request.message
  bookingKeywords.any (fun k => pyIn k ml)
    || !(findNums ml).isEmpty
    || doctorNames.any (fun n => pyIn n ml)
    || ctx.available_slots.any (fun slot =>
        pyIn (lowerStr (slot.time.getD [])) ml || pyIn (slot.date.getD []) ml)

/-- The condition under which `_is_booking_from_previous_slots` actually
fires: non-empty stored slots AND a booking keyword AND (a bare number OR a
stored-slot doctor/time/date reference OR a hard-coded doctor name fragment
OR the literal word `appointment`). -/
def slotResolutionFires (request : PatientRequest) (sc : Option Ctx) : Bool :=
  match sc with
  | none => false
  | some ctx =>
    let ml := lowerStr request.message
    !ctx.available_slots.isEmpty
      && bookingKeywords.any (fun k => pyIn k ml)
      && (!(findNums ml).isEmpty
          || ctx.available_slots.any (fun slot =>
              (splitWS (lowerStr (slot.doctor.getD []))).any (fun part => pyIn part ml)
              || pyIn (lowerStr (slot.time.getD [])) ml
              || pyIn (slot.date.getD []) ml)
          || doctorNames.any (fun n => pyIn n ml)
          || pyIn (strOf "appointment") ml)

/-- The LOW-priority/general-practice generation loop of
`_find_available_slots`, before sorting and capping. -/
def lowGPGeneration (today : Nat) : List AppointmentSlot :=
  (List.range 14).flatMap (fun i =>
    gpDoctors.flatMap (fun doc =>
      if (today + i) % 7 < 5 then
        genSlotsForDay (today + i) doc (strOf "general_practice") false
      else []))

/-- Requirements for the C8 scenario: `priority=LOW`,
`specialty=general_practice`, no preferences. -/
def lowGPRequirements : BookingRequirements :=
  { specialty := strOf "general_practice"
    priority := .low
    preferred_date := none
    preferred_time := none
    appointment_type := .general
    patient_id := strOf "patient1" }

/-- The spec's §8 example slot
(`{doctor: "Dr. Michael Chen", date: "2025-08-01", time: "9:00 AM",
specialty: "General Practice"}`) as stored in a session context. -/
def chenSlot : CtxSlot :=
  { doctor := some (strOf "Dr. Michael Chen")
    date := some (strOf "2025-08-01")
    time := some (strOf "9:00 AM")
    specialty := some (strOf "General Practice") }

/-- A session context whose previous turn showed exactly the Chen slot. -/
def chenCtx : Ctx := { available_slots := [chenSlot] }

/-- Oracles where every completion call succeeds. -/
def oksOracles : Oracles :=
  { sec := .ok (strOf "ok"), assist := .ok (strOf "ok"), triage := .ok (strOf "ok"),
    comorbid := .ok (strOf "ok"), book := .ok (strOf "ok") }

/-- Oracles where every completion call raises. -/
def errOracles : Oracles :=
  { sec := .error (strOf "fail"), assist := .error (strOf "fail"),
    triage := .error (strOf "fail"), comorbid := .error (strOf "fail"),
    book := .error (strOf "fail") }

/-- A carried-forward symptom analysis from an earlier turn. -/
def saOld : SymptomAnalysis :=
  { symptoms := [strOf "headache"]
    severity := .medium
    urgency := false
    specialty_required := some (strOf "neurology") }

/-- A session context carrying a symptom analysis but no slots. -/
def ctxWithSym : Ctx := { symptom_analysis := some saOld }

/-- A session context holding a malformed slot dict (doctor only): slot
resolution selects it through the empty-time match and the booking
construction then raises `KeyError: 'date'`. -/
def badCtx : Ctx := { available_slots := [{ doctor := some (strOf "Dr. Sam Chen") }] }

/-- `str(KeyError("date"))`. -/
def keyErrDate : Str := apoc :: strOf "date" ++ [apoc]

/-- A first booking turn against the stored Chen slot. -/
def reqChen : PatientRequest := { message := strOf "book with chen" }

/-- A later turn in the same session with booking intent. -/
def reqChen2 : PatientRequest := { message := strOf "please book with chen again" }

/-! ## Helper lemmas -/

/-- The severity-accumulating inner loop of `_analyze_threats` counts
matches. -/
theorem foldl_match_add (ml : Str) (sev : Nat) (pats : List (List Str)) (acc : Nat) :
    pats.foldl (fun a p => if matchSegs p ml then a + sev else a) acc
      = acc + sev * pats.countP (fun p => matchSegs p ml) := by
  induction pats generalizing acc with
  | nil => simp
  | cons p t ih =>
    by_cases h : matchSegs p ml
    · simp only [List.foldl_cons, List.countP_cons, h, if_pos, ih]
      ring
    · simp only [List.foldl_cons, List.countP_cons, h, if_neg, ih]
      simp [h]

/-- The nested category/pattern loops of `_analyze_threats` compute the
spec's flat sum of severities over matched patterns. -/
theorem analyzeThreatsScore_eq_spec (ml : Str) :
    analyzeThreatsScore ml = specRiskScore ml := by
  unfold analyzeThreatsScore specRiskScore threatCategories
  simp only [List.foldl_cons, List.foldl_nil]
  rw [foldl_match_add, foldl_match_add, foldl_match_add, foldl_match_add]
  have h1 : threatSeverity (strOf "prompt_injection") = 6 := by decide
  have h2 : threatSeverity (strOf "data_extraction") = 8 := by decide
  have h3 : threatSeverity (strOf "medical_fraud") = 9 := by decide
  have h4 : threatSeverity (strOf "harassment") = 7 := by decide
  rw [h1, h2, h3, h4]
  ring

/-- The `slot_references` list is non-empty exactly when some stored slot
matches one of the three reference conditions. -/
theorem slotReferences_not_isEmpty (slots : List CtxSlot) (ml : Str) :
    (!(slotReferences slots ml).isEmpty)
      = slots.any (fun slot =>
          (splitWS (lowerStr (slot.doctor.getD []))).any (fun part => pyIn part ml)
          || pyIn (lowerStr (slot.time.getD [])) ml
          || pyIn (slot.date.getD []) ml) := by
  induction slots with
  | nil => rfl
  | cons s t ih =>
    rw [List.any_cons, ← ih]
    simp only [slotReferences, List.flatMap_cons]
    by_cases h1 : (splitWS (lowerStr (s.doctor.getD []))).any (fun part => pyIn part ml)
      <;> by_cases h2 : pyIn (lowerStr (s.time.getD [])) ml
      <;> by_cases h3 : pyIn (s.date.getD []) ml
      <;> simp [h1, h2, h3, List.isEmpty]

/-! ## Claim theorems -/

/-- C6: for every message, the security classifier's safety level is
computed from the sum of severities of all matched patterns across the four
categories, with fixed category severities prompt_injection 0.6,
data_extraction 0.8, medical_fraud 0.9, harassment 0.7 (in tenths here): the
level is BLOCK iff the summed score is ≥ 0.8; otherwise CAUTION iff the
score is ≥ 0.4 or a sensitive-info leak was detected in the completion text
(any sensitive-info leak forces at least CAUTION); otherwise SAFE. -/
theorem C6_security_level_thresholds (userMsg llmText : Str) :
    (jailbreakProc userMsg llmText).data.safety_level =
      (if 8 ≤ specRiskScore (lowerStr userMsg) then strOf "BLOCK"
       else if 4 ≤ specRiskScore (lowerStr userMsg)
           || containsSensitiveInfo (lowerStr llmText) then strOf "CAUTION"
       else strOf "SAFE") := by
  show determineSafetyLevel (analyzeThreatsScore (lowerStr userMsg))
      (containsSensitiveInfo (lowerStr llmText)) = _
  rw [determineSafetyLevel, analyzeThreatsScore_eq_spec]

/-- C7: for the message "I am 70 years old with diabetes and asthma" with
empty context, the comorbidity analyzer extracts risk factors including
elderly (age 70), diabetes, and a respiratory factor for asthma, its
additive risk score (elderly +2, diabetes +2, respiratory +2, plus the +2
bonus for ≥ 3 distinct factors) reaches at least 6, and the resulting
risk_level is HIGH. -/
theorem C7_comorbidity_example_high :
    (strOf "elderly (age 70)")
        ∈ extractRiskFactors (strOf "I am 70 years old with diabetes and asthma") {}
    ∧ (strOf "diabetes")
        ∈ extractRiskFactors (strOf "I am 70 years old with diabetes and asthma") {}
    ∧ (strOf "respiratory (asthma)")
        ∈ extractRiskFactors (strOf "I am 70 years old with diabetes and asthma") {}
    ∧ 6 ≤ comorbidityScore
        (extractRiskFactors (strOf "I am 70 years old with diabetes and asthma") {})
    ∧ assessRiskLevel
        (extractRiskFactors (strOf "I am 70 years old with diabetes and asthma") {})
      = .high
    ∧ ((comorbidProc (strOf "I am 70 years old with diabetes and asthma") {}
        (strOf "ok")).data.comorbidity_risk.risk_level = .high) := by
  decide

/-- C3 (counterexample): with the Chen slot stored in the session, the
message "1" is a bare number, so the claim's booking-intent disjunction
holds, yet `_is_booking_from_previous_slots` does not fire — the code
requires a booking keyword conjunctively, not as one disjunct. -/
theorem C3_counterexample :
    chenCtx.available_slots.isEmpty = false
    ∧ specSlotResolutionIntent { message := strOf "1" } chenCtx = true
    ∧ isBookingFromPrevSlots { message := strOf "1" } (some chenCtx) = false := by
  decide

/-- C3 (amended): the slot-resolution stage fires before all other stages
exactly when the session holds a non-empty `available_slots` list AND a
booking keyword from {book, schedule, confirm, reserve, choose, select,
pick} occurs AND (a bare number occurs OR a stored slot's doctor-name
fragment, time or date string occurs OR a hard-coded doctor first/last name
occurs OR the word "appointment" occurs). -/
theorem C3_slot_resolution_trigger :
    (∀ (request : PatientRequest) (sc : Option Ctx),
      isBookingFromPrevSlots request sc = slotResolutionFires request sc)
    ∧ (∀ (today : Nat) (fresh : Str) (os : Oracles) (request : PatientRequest)
        (sc : Option Ctx),
      isBookingFromPrevSlots request sc = true →
      processRequest today fresh os request sc =
        (match handleSlotBooking fresh request (sc.getD {}) with
         | .ok r => r
         | .error e => createErrorResponse e)) := by
  constructor
  · intro request sc
    cases sc with
    | none => rfl
    | some ctx =>
      simp only [isBookingFromPrevSlots, slotResolutionFires]
      by_cases hs : ctx.available_slots.isEmpty
      · simp [hs]
      · simp only [hs, Bool.not_false, Bool.true_and, if_neg, Bool.false_eq_true,
          not_false_eq_true]
        rw [← slotReferences_not_isEmpty]
        cases ha : (findNums (lowerStr request.message)).isEmpty
          <;> cases hi : bookingKeywords.any (fun k => pyIn k (lowerStr request.message))
          <;> simp [ha, hi, Bool.or_assoc, Bool.or_comm, Bool.or_left_comm]
  · intro today fresh os request sc h
    unfold processRequest processCore
    rw [h]
    simp

/-- C3 (witness): a turn that does fire — "book 1" with the Chen slot
stored — short-circuits the whole pipeline into `_handle_slot_booking`. -/
theorem C3_witness :
    isBookingFromPrevSlots { message := strOf "book 1" } (some chenCtx) = true
    ∧ processRequest 0 (strOf "ABCD1234") oksOracles { message := strOf "book 1" }
        (some chenCtx) =
      (match handleSlotBooking (strOf "ABCD1234") { message := strOf "book 1" }
          ((some chenCtx).getD {}) with
       | .ok r => r
       | .error e => createErrorResponse e) :=
  ⟨by decide,
   C3_slot_resolution_trigger.2 0 (strOf "ABCD1234") oksOracles
     { message := strOf "book 1" } (some chenCtx) (by decide)⟩

/-- C4: slot disambiguation on a follow-up turn attempts, in order, (a)
doctor name-fragment match, (b) a bare integer as a 1-based index, (c) a
verbatim time-string match, defaulting to the first listed slot when
booking-confirmation language is present; with the stored list and message
"book option 1" the numeric path deterministically selects index 0, and with
the single Dr. Michael Chen slot and "book with Chen" exactly that slot is
resolved into a confirmed `AppointmentBooking` (`confirmed = true`). -/
theorem C4_slot_disambiguation_order :
    (∀ (slots : List CtxSlot) (ml : Str) (s : CtxSlot),
      docNameSelect slots ml = some s → selectSlot slots ml = some s)
    ∧ (∀ (slots : List CtxSlot) (ml : Str) (s : CtxSlot),
        docNameSelect slots ml = none → numberSelect slots ml = some s →
        selectSlot slots ml = some s)
    ∧ (∀ (slots : List CtxSlot) (ml : Str) (s : CtxSlot),
        docNameSelect slots ml = none → numberSelect slots ml = none →
        timeSelect slots ml = some s → selectSlot slots ml = some s)
    ∧ (∀ (slots : List CtxSlot) (ml : Str),
        docNameSelect slots ml = none → numberSelect slots ml = none →
        timeSelect slots ml = none → selectSlot slots ml = defaultSelect slots ml)
    ∧ (docNameSelect [chenSlot] (lowerStr (strOf "book option 1")) = none
       ∧ numberSelect [chenSlot] (lowerStr (strOf "book option 1")) = some chenSlot
       ∧ (processRequest 0 (strOf "ABCD1234") oksOracles
            { message := strOf "book option 1" } (some chenCtx)).booking.map
            (fun b => (b.doctor, b.date, b.time, b.confirmed))
         = some (strOf "Dr. Michael Chen", strOf "2025-08-01", strOf "9:00 AM", true))
    ∧ ((processRequest 0 (strOf "ABCD1234") oksOracles
          { message := strOf "book with Chen" } (some chenCtx)).booking.map
          (fun b => (b.doctor, b.confirmed))
       = some (strOf "Dr. Michael Chen", true)) := by
  refine ⟨?_, ?_, ?_, ?_, by decide, by decide⟩
  · intro slots ml s h
    simp [selectSlot, h]
  · intro slots ml s h1 h2
    simp [selectSlot, h1, h2]
  · intro slots ml s h1 h2 h3
    simp [selectSlot, h1, h2, h3]
  · intro slots ml h1 h2 h3
    simp [selectSlot, h1, h2, h3]

/-- C4 (witness): the ordered cascade applied at the "book option 1"
instance, with its hypotheses discharged concretely. -/
theorem C4_witness :
    docNameSelect [chenSlot] (lowerStr (strOf "book option 1")) = none
    ∧ selectSlot [chenSlot] (lowerStr (strOf "book option 1")) = some chenSlot :=
  ⟨by decide,
   C4_slot_disambiguation_order.2.1 [chenSlot] (lowerStr (strOf "book option 1"))
     chenSlot (by decide) (by decide)⟩

/-- A safety level computed from a score below the BLOCK threshold is never
`"BLOCK"`. -/
theorem determineSafetyLevel_ne_block (score : Nat) (sens : Bool) (h : score < 8) :
    ¬(determineSafetyLevel score sens = strOf "BLOCK") := by
  unfold determineSafetyLevel
  rw [if_neg (by omega)]
  split <;> decide

/-- The security status after a successful security-stage completion is the
level computed by the classifier. -/
theorem securityCheck_initState_status (llmText : Str) (request : PatientRequest)
    (sc : Option Ctx) :
    (securityCheck (.ok llmText) (initState request sc)).security_status
      = determineSafetyLevel (analyzeThreatsScore (lowerStr request.message))
          (containsSensitiveInfo (lowerStr llmText)) := rfl

/-- A successful stage invocation carries its processed payload. -/
theorem invokeAgent_ok_data {α : Type} (name : Str) (proc : Str → ProcOut α)
    (t : Str) : (invokeAgent name (.ok t) proc).data = some (proc t).data := rfl

/-- The security stage leaves the patient request untouched. -/
theorem securityCheck_initState_request (llmText : Str) (request : PatientRequest)
    (sc : Option Ctx) :
    (securityCheck (.ok llmText) (initState request sc)).patient_request
      = request := rfl

/-- C9: whenever a stage exception reaches the orchestrator's turn boundary,
the returned response is the generic error response: its message describes
the failure, its available_slots list is empty, requires_emergency is false,
and every agent_response accumulated before the failure is discarded (the
error response's agent_responses list is empty). -/
theorem C9_atomic_error_boundary :
    (∀ (e : Str),
      createErrorResponse e =
        { message := strOf "An error occurred while processing your request: " ++ e
          agent_responses := []
          available_slots := []
          next_steps := [strOf "Please try again or contact support"]
          requires_emergency := false
          session_id := none })
    ∧ (∀ (today : Nat) (fresh : Str) (os : Oracles) (request : PatientRequest)
        (sc : Option Ctx) (e : Str),
      processCore today fresh os request sc = .error e →
      processRequest today fresh os request sc = createErrorResponse e) := by
  refine ⟨fun e => rfl, ?_⟩
  intro today fresh os request sc e h
  unfold processRequest
  rw [h]

/-- C9 (witness): a malformed stored slot (doctor key only) is selected by
the empty-time match and the booking construction raises `KeyError: 'date'`,
which the turn boundary converts to the generic error response. -/
theorem C9_witness :
    processCore 0 (strOf "ABCD1234") oksOracles reqChen (some badCtx)
      = .error keyErrDate
    ∧ processRequest 0 (strOf "ABCD1234") oksOracles reqChen (some badCtx)
      = createErrorResponse keyErrDate :=
  ⟨rfl,
   C9_atomic_error_boundary.2 0 (strOf "ABCD1234") oksOracles reqChen (some badCtx)
     keyErrDate rfl⟩

/-- C10: the session-store update overwrites the stored available_slots only
when the new response's list is non-empty; a successful slot-resolution
booking returns an empty list, so the previously shown slots remain in the
session context after a confirmed booking, and a later message with booking
intent in the same session resolves and books again from that stale list. -/
theorem C10_stale_slots_rebooking :
    (∀ (ctx : Ctx) (response : AppointmentResponse) (request : PatientRequest),
      response.available_slots = [] →
      (updateSessionContext ctx response request).available_slots
        = ctx.available_slots)
    ∧ ((processRequest 0 (strOf "ABCD1234") oksOracles reqChen
          (some chenCtx)).available_slots = []
       ∧ (processRequest 0 (strOf "ABCD1234") oksOracles reqChen
            (some chenCtx)).booking.map (fun b => (b.doctor, b.confirmed))
         = some (strOf "Dr. Michael Chen", true))
    ∧ ((updateSessionContext chenCtx
          (processRequest 0 (strOf "ABCD1234") oksOracles reqChen (some chenCtx))
          reqChen).available_slots = chenCtx.available_slots
       ∧ isBookingFromPrevSlots reqChen2
          (some (updateSessionContext chenCtx
            (processRequest 0 (strOf "ABCD1234") oksOracles reqChen (some chenCtx))
            reqChen)) = true
       ∧ (processRequest 0 (strOf "EFGH5678") oksOracles reqChen2
          (some (updateSessionContext chenCtx
            (processRequest 0 (strOf "ABCD1234") oksOracles reqChen (some chenCtx))
            reqChen))).booking.map (fun b => (b.doctor, b.confirmed))
         = some (strOf "Dr. Michael Chen", true)) := by
  refine ⟨?_, by decide, by decide⟩
  intro ctx response request h
  unfold updateSessionContext
  cases hsym : response.symptom_analysis <;>
    cases hcom : response.comorbidity_risk <;>
    simp only [h, hsym, hcom, List.isEmpty_nil, Bool.not_true, Bool.false_eq_true,
      if_false] <;>
    split_ifs <;> rfl

/-- C10 (witness): the no-overwrite rule applied at the concrete booking
turn. -/
theorem C10_witness :
    (updateSessionContext chenCtx
      (processRequest 0 (strOf "ABCD1234") oksOracles reqChen (some chenCtx))
      reqChen).available_slots = chenCtx.available_slots :=
  C10_stale_slots_rebooking.1 chenCtx
    (processRequest 0 (strOf "ABCD1234") oksOracles reqChen (some chenCtx))
    reqChen (by decide)

/-- C2 (counterexample): a turn in which every external completion call
raises is not converted to the StageFailure generic error response — all
four stages still append their (error) agent responses and the final message
is the absorbed booker error text, not the turn-boundary error message. -/
theorem C2_counterexample :
    (processRequest 0 (strOf "ABCD1234") errOracles { message := strOf "hello" }
      none).agent_responses.length = 4
    ∧ (processRequest 0 (strOf "ABCD1234") errOracles { message := strOf "hello" }
        none).message
      = strOf "Error processing request: OpenAI API call failed: fail" := by
  decide

/-- C2 (amended): an external completion failure is absorbed inside the
stage: `invoke` catches it and returns an error agent-response (confidence
0, action error_handling, no payload), so the remaining pipeline continues;
in particular a failed security stage defaults the safety status to SAFE and
the turn proceeds through all four stages. -/
theorem C2_failures_absorbed_in_stage :
    (∀ (α : Type) (name : Str) (proc : Str → ProcOut α) (e : Str),
      invokeAgent name (.error e) proc =
        { agent_name := name
          message := strOf "Error processing request: OpenAI API call failed: " ++ e
          confidence := 0
          action_taken := some (strOf "error_handling")
          data := none })
    ∧ (∀ (e m : Str),
      securityStatusOf (invokeAgent (strOf "Jailbreak Agent") (.error e)
        (jailbreakProc m)) = strOf "SAFE")
    ∧ ((processRequest 0 (strOf "ABCD1234") errOracles { message := strOf "hello" }
        none).agent_responses.map (fun r => r.agent_name)
      = [strOf "Jailbreak Agent", strOf "Assisting Agent", strOf "Triage Agent",
         strOf "Appointment Booker"]) := by
  exact ⟨fun _ _ _ _ => rfl, fun _ _ => rfl, by decide⟩

/-- C5 (counterexample): for the non-medical message "book a movie ticket"
in a session that carried a symptom_analysis from an earlier turn, the
response's symptom_analysis is not empty — the carried analysis is echoed
back. -/
theorem C5_counterexample :
    isMedicalRequest (lowerStr (strOf "book a movie ticket")) = false
    ∧ (processRequest 0 (strOf "ABCD1234") oksOracles
        { message := strOf "book a movie ticket" } (some ctxWithSym)).symptom_analysis
      = some saOld := by
  decide

/-- C5 (amended): for every turn that reaches the intake stage (slot
resolution does not fire, the security stage does not block) and is
classified non-medical, the triage, comorbidity and slot stages do not run
(exactly the security and intake agents respond), the response's
available_slots and booking are empty, and its symptom_analysis is exactly
the session's carried-forward one (absent when the session carried none). -/
theorem C5_nonmedical_short_circuit (today : Nat) (fresh : Str)
    (request : PatientRequest) (sc : Option Ctx) (s1 t s3 s4 s5 : Str)
    (hfire : isBookingFromPrevSlots request sc = false)
    (hblock : analyzeThreatsScore (lowerStr request.message) < 8)
    (hmed : isMedicalRequest (lowerStr request.message) = false) :
    (processRequest today fresh ⟨.ok s1, .ok t, .ok s3, .ok s4, .ok s5⟩ request
      sc).available_slots = []
    ∧ (processRequest today fresh ⟨.ok s1, .ok t, .ok s3, .ok s4, .ok s5⟩ request
        sc).booking = none
    ∧ (processRequest today fresh ⟨.ok s1, .ok t, .ok s3, .ok s4, .ok s5⟩ request
        sc).symptom_analysis = (sc.getD {}).symptom_analysis
    ∧ (processRequest today fresh ⟨.ok s1, .ok t, .ok s3, .ok s4, .ok s5⟩ request
        sc).agent_responses.map (fun a => a.agent_name)
      = [strOf "Jailbreak Agent", strOf "Assisting Agent"] := by
  unfold processRequest processCore
  rw [hfire]
  simp only [Bool.false_eq_true, if_false]
  rw [securityCheck_initState_status,
    if_neg (determineSafetyLevel_ne_block _ _ hblock)]
  have hproc :
      (assistProc request.message t).data
        = .nonMedical (classifyNonMedicalRequest (lowerStr request.message)) := by
    unfold assistProc
    simp [hmed]
  have hnm :
      isNonMedicalRequest
        (initialAssistance (.ok t)
          (securityCheck (.ok s1) (initState request sc))) = true := by
    simp [initialAssistance, invokeAgent_ok_data, securityCheck_initState_request,
      hproc, isNonMedicalRequest, ctxUpdateAssist]
  rw [if_pos hnm]
  refine ⟨rfl, rfl, rfl, ?_⟩
  simp [initialAssistance, invokeAgent_ok_data, securityCheck_initState_request,
    hproc, invokeAgent, toAgentResponse, securityCheck, initState,
    finalizeResponse, createResponse, ctxUpdateAssist]

/-- C5 (witness): the non-medical rules applied at "book a movie ticket"
with a carried symptom analysis. -/
theorem C5_witness :
    (processRequest 0 (strOf "ABCD1234")
      ⟨.ok (strOf "ok"), .ok (strOf "ok"), .ok (strOf "ok"), .ok (strOf "ok"),
       .ok (strOf "ok")⟩
      { message := strOf "book a movie ticket" } (some ctxWithSym)).available_slots = []
    ∧ (processRequest 0 (strOf "ABCD1234")
        ⟨.ok (strOf "ok"), .ok (strOf "ok"), .ok (strOf "ok"), .ok (strOf "ok"),
         .ok (strOf "ok")⟩
        { message := strOf "book a movie ticket" }
        (some ctxWithSym)).symptom_analysis = ((some ctxWithSym).getD {}).symptom_analysis :=
  ⟨(C5_nonmedical_short_circuit 0 (strOf "ABCD1234")
      { message := strOf "book a movie ticket" } (some ctxWithSym)
      (strOf "ok") (strOf "ok") (strOf "ok") (strOf "ok") (strOf "ok")
      (by decide) (by decide) (by decide)).1,
   (C5_nonmedical_short_circuit 0 (strOf "ABCD1234")
      { message := strOf "book a movie ticket" } (some ctxWithSym)
      (strOf "ok") (strOf "ok") (strOf "ok") (strOf "ok") (strOf "ok")
      (by decide) (by decide) (by decide)).2.2.1⟩

/-- C1 (counterexample): "can't breathe" is an intake urgency keyword and a
triage emergency keyword, yet with no session context the turn returns
`requires_emergency = false`: the message contains no medical-lexicon word,
so the intake stage classifies it non-medical and exits before any emergency
check. -/
theorem C1_counterexample :
    (sQ "can" "t breathe") ∈ urgentKeywords
    ∧ (sQ "can" "t breathe") ∈ triageEmergencyKeywords
    ∧ checkEmergencyIndicators (lowerStr (sQ "can" "t breathe")) = true
    ∧ (processRequest 0 (strOf "ABCD1234") oksOracles
        { message := sQ "can" "t breathe" } none).requires_emergency = false := by
  decide

/-- C1 (amended): with no session context, all stage completions
succeeding, a security score below the BLOCK threshold, a message that
passes the medical-relevance gate, and an intake stage that does not divert
into the booking shortcut, every message that contains an intake urgency
indicator or satisfies the triage emergency check yields
`requires_emergency = true` and an Emergency Protocol agent response
carrying the fixed emergency protocol text. -/
theorem C1_emergency_routing (today : Nat) (fresh : Str) (m : Str)
    (sid pid : Option Str) (s1 s2 s3 s4 s5 : Str)
    (hblock : analyzeThreatsScore (lowerStr m) < 8)
    (hmed : isMedicalRequest (lowerStr m) = true)
    (hbook : ¬((assistProc m s2).action_taken = some (strOf "initiate_booking")))
    (hkw : detectUrgencyIndicators (lowerStr m) ≠ []
      ∨ checkEmergencyIndicators (lowerStr m) = true) :
    (processRequest today fresh ⟨.ok s1, .ok s2, .ok s3, .ok s4, .ok s5⟩
      ⟨m, sid, pid⟩ none).requires_emergency = true
    ∧ (∃ ar ∈ (processRequest today fresh ⟨.ok s1, .ok s2, .ok s3, .ok s4, .ok s5⟩
          ⟨m, sid, pid⟩ none).agent_responses,
        ar.agent_name = strOf "Emergency Protocol"
        ∧ ar.message = emergencyProtocolText) := by
  unfold processRequest processCore
  rw [show isBookingFromPrevSlots ⟨m, sid, pid⟩ none = false from rfl]
  simp only [Bool.false_eq_true, if_false]
  rw [securityCheck_initState_status,
    if_neg (determineSafetyLevel_ne_block _ _ hblock)]
  cases hcr : detectCrisisIndicators (lowerStr m) with
  | cons c cs =>
    have hproc : assistProc m s2 =
        { message := crisisResponse (c :: cs)
          confidence := 100
          action_taken := some (strOf "crisis_intervention")
          data := .crisis (c :: cs) } := by
      unfold assistProc
      simp [hmed, hcr]
    have hA : isNonMedicalRequest
        (initialAssistance (.ok s2)
          (securityCheck (.ok s1) (initState ⟨m, sid, pid⟩ none))) = false := by
      simp [initialAssistance, invokeAgent_ok_data, securityCheck_initState_request,
        hproc, isNonMedicalRequest, ctxUpdateAssist]
    have hB : isBookingRequestWithContext
        (initialAssistance (.ok s2)
          (securityCheck (.ok s1) (initState ⟨m, sid, pid⟩ none))) = false := by
      simp [initialAssistance, invokeAgent_ok_data, securityCheck_initState_request,
        hproc, isBookingRequestWithContext, ctxUpdateAssist, invokeAgent,
        toAgentResponse, securityCheck, initState]
      exact ⟨fun hname => absurd hname (by decide), by decide⟩
    have hC : shouldRouteToEmergency
        (initialAssistance (.ok s2)
          (securityCheck (.ok s1) (initState ⟨m, sid, pid⟩ none))) = true := by
      simp [initialAssistance, invokeAgent_ok_data, securityCheck_initState_request,
        hproc, shouldRouteToEmergency, ctxUpdateAssist, securityCheck, initState]
    rw [hA]
    simp only [Bool.false_eq_true, if_false]
    rw [hB]
    simp only [Bool.false_eq_true, if_false]
    rw [hC]
    simp only [if_true]
    exact ⟨rfl, _, List.mem_append_right _ (List.mem_singleton_self _), rfl, rfl⟩
  | nil =>
    have hproc : assistProc m s2 =
        { message := s2
          confidence := assistConfidence (extractPatientInfo (lowerStr m))
          action_taken := some (assistAction (extractPatientInfo (lowerStr m)) s2)
          data := .normal (extractPatientInfo (lowerStr m))
            (assistStage (extractPatientInfo (lowerStr m)))
            (detectUrgencyIndicators (lowerStr m)) } := by
      unfold assistProc
      simp [hmed, hcr]
    have hA : isNonMedicalRequest
        (initialAssistance (.ok s2)
          (securityCheck (.ok s1) (initState ⟨m, sid, pid⟩ none))) = false := by
      simp [initialAssistance, invokeAgent_ok_data, securityCheck_initState_request,
        hproc, isNonMedicalRequest, ctxUpdateAssist]
    have hB : isBookingRequestWithContext
        (initialAssistance (.ok s2)
          (securityCheck (.ok s1) (initState ⟨m, sid, pid⟩ none))) = false := by
      simp [initialAssistance, invokeAgent_ok_data, securityCheck_initState_request,
        hproc, isBookingRequestWithContext, ctxUpdateAssist, invokeAgent,
        toAgentResponse, securityCheck, initState]
      refine ⟨fun hname => absurd hname (by decide), fun hcontra => hbook ?_⟩
      rw [hproc]
      exact congrArg some hcontra
    rw [hA]
    simp only [Bool.false_eq_true, if_false]
    rw [hB]
    simp only [Bool.false_eq_true, if_false]
    cases hu : detectUrgencyIndicators (lowerStr m) with
    | cons u us =>
      have hC : shouldRouteToEmergency
          (initialAssistance (.ok s2)
            (securityCheck (.ok s1) (initState ⟨m, sid, pid⟩ none))) = true := by
        simp [initialAssistance, invokeAgent_ok_data, securityCheck_initState_request,
          hproc, shouldRouteToEmergency, ctxUpdateAssist, securityCheck, initState, hu]
      rw [hC]
      simp only [if_true]
      exact ⟨rfl, _, List.mem_append_right _ (List.mem_singleton_self _), rfl, rfl⟩
    | nil =>
      have hce : checkEmergencyIndicators (lowerStr m) = true := by
        cases hkw with
        | inl h => exact absurd hu h
        | inr h => exact h
      have hC : shouldRouteToEmergency
          (initialAssistance (.ok s2)
            (securityCheck (.ok s1) (initState ⟨m, sid, pid⟩ none))) = false := by
        simp [initialAssistance, invokeAgent_ok_data, securityCheck_initState_request,
          hproc, shouldRouteToEmergency, ctxUpdateAssist, securityCheck, initState, hu]
      rw [hC]
      simp only [Bool.false_eq_true, if_false]
      have hsym : (initialAssistance (.ok s2)
          (securityCheck (.ok s1) (initState ⟨m, sid, pid⟩ none))).symptom_analysis
          = none := rfl
      rw [hsym]
      simp only [Option.isNone_none, Bool.or_true, if_true]
      have htr : (triageAssessment (.ok s3)
          (initialAssistance (.ok s2)
            (securityCheck (.ok s1) (initState ⟨m, sid, pid⟩ none)))).requires_emergency
          = checkEmergencyIndicators (lowerStr m) := rfl
      rw [htr, hce]
      simp only [if_true]
      exact ⟨rfl, _, List.mem_append_right _ (List.mem_singleton_self _), rfl, rfl⟩

/-- C1 (witness): the amended emergency rule applied at
"chest pain and can't breathe" with empty context. -/
theorem C1_witness :
    (processRequest 0 (strOf "ABCD1234")
      ⟨.ok (strOf "ok"), .ok (strOf "ok"), .ok (strOf "ok"), .ok (strOf "ok"),
       .ok (strOf "ok")⟩
      ⟨strOf "chest pain and " ++ sQ "can" "t breathe", none, none⟩
      none).requires_emergency = true :=
  (C1_emergency_routing 0 (strOf "ABCD1234")
    (strOf "chest pain and " ++ sQ "can" "t breathe") none none
    (strOf "ok") (strOf "ok") (strOf "ok") (strOf "ok") (strOf "ok")
    (by decide) (by decide) (by decide) (Or.inl (by decide))).1

/-- C8: slot generation with priority LOW and specialty general_practice
returns only slots whose dates are weekdays within the next 14 days, each
doctor contributing 7 hourly slots per generated day, and the returned list
is the first 10 slots after sorting ascending by the (date, time) string
pair. -/
theorem C8_low_priority_generation (today : Nat) :
    (findAvailableSlots today lowGPRequirements).length ≤ 10
    ∧ findAvailableSlots today lowGPRequirements
      = (List.insertionSort slotLe (lowGPGeneration today)).take 10
    ∧ List.Sorted slotLe (findAvailableSlots today lowGPRequirements)
    ∧ ((findAvailableSlots today lowGPRequirements).all (fun s =>
        (List.range 14).any (fun i =>
          decide ((today + i) % 7 < 5) && decide (s.date = fmtDate (today + i)))
        && hourlyTimes.any (fun t => decide (s.time = t))
        && gpDoctors.any (fun doc => decide (s.doctor = doc.name)))) = true
    ∧ ((List.range 14).all (fun i =>
        !decide ((today + i) % 7 < 5)
        || gpDoctors.all (fun doc =>
            decide ((genSlotsForDay (today + i) doc (strOf "general_practice")
                false).length = 7)
            && decide ((genSlotsForDay (today + i) doc (strOf "general_practice")
                false).map (fun s => s.time) = hourlyTimes)))) = true := by
  have heq : findAvailableSlots today lowGPRequirements
      = (List.insertionSort slotLe (lowGPGeneration today)).take 10 := rfl
  refine ⟨?_, heq, ?_, ?_, ?_⟩
  · rw [heq]
    exact List.length_take_le 10 _
  · rw [heq]
    exact (List.sorted_insertionSort slotLe (lowGPGeneration today)).sublist
      (List.take_sublist 10 _)
  · rw [List.all_eq_true]
    intro s hs
    rw [heq] at hs
    have hs1 : s ∈ List.insertionSort slotLe (lowGPGeneration today) :=
      List.take_subset 10 _ hs
    have hs2 : s ∈ lowGPGeneration today :=
      (List.perm_insertionSort slotLe (lowGPGeneration today)).mem_iff.mp hs1
    simp only [lowGPGeneration, List.mem_flatMap, List.mem_range] at hs2
    obtain ⟨i, hi, doc, hdoc, hslot⟩ := hs2
    by_cases hw : (today + i) % 7 < 5
    · rw [if_pos hw] at hslot
      simp only [genSlotsForDay, List.mem_map] at hslot
      obtain ⟨tm, htm, hfs⟩ := hslot
      subst hfs
      simp only [List.any_eq_true, Bool.and_eq_true, decide_eq_true_eq, List.mem_range]
      exact ⟨⟨⟨i, hi, hw, rfl⟩, ⟨tm, htm, rfl⟩⟩, ⟨doc, hdoc, rfl⟩⟩
    · rw [if_neg hw] at hslot
      exact absurd hslot (List.not_mem_nil s)
  · rw [List.all_eq_true]
    intro i hi
    by_cases hw : (today + i) % 7 < 5
    · have hall : (gpDoctors.all fun doc =>
          decide ((genSlotsForDay (today + i) doc (strOf "general_practice")
              false).length = 7)
          && decide ((genSlotsForDay (today + i) doc (strOf "general_practice")
              false).map (fun s => s.time) = hourlyTimes)) = true := by
        rw [List.all_eq_true]
        intro doc _
        simp only [genSlotsForDay, List.map_map, Bool.and_eq_true, decide_eq_true_eq]
        exact ⟨rfl, rfl⟩
      simp [hall]
    · simp [hw]

end PatientApp
